import Mathlib

/-!
Verification of the imf-creator MIDI-to-IMF conversion pipeline.

The definitions below are shallow embeddings of the Python sources:
  * `imfcreator/midi.py` (song events and their total order),
  * `imfcreator/adlib.py` (OPL register model, operators, instruments),
  * `imfcreator/plugins/__init__.py` (`MidiSongFile.sort`),
  * `imfcreator/plugins/imffileplugin.py` (the MIDI-to-OPL converter and the
    IMF file writer).

Python floats are modelled as rationals, Python ints as `Nat`/`Int` (with the
source's own range assertions kept explicit), Python exceptions as
`Except String`, and Python lists that are used as fixed-size arrays
(the 256-entry register shadow, the 128-entry controller array, the 16 MIDI
channel slots) as total functions updated pointwise.
-/

namespace ImfCreator

/-! ## midi.py: event types and the song event order -/

/-- Song event types, from `midi.py` `EventType`. -/
inductive EventType
  | NOTE_OFF
  | NOTE_ON
  | POLYPHONIC_KEY_PRESSURE
  | CONTROLLER_CHANGE
  | PROGRAM_CHANGE
  | CHANNEL_KEY_PRESSURE
  | PITCH_BEND
  | F0_SYSEX
  | F7_SYSEX
  | META
deriving DecidableEq, Repr

/-- Song meta event types, from `midi.py` `MetaType`. -/
inductive MetaType
  | SEQUENCE_NUMBER
  | TEXT_EVENT
  | COPYRIGHT
  | TRACK_NAME
  | INSTRUMENT_NAME
  | LYRIC
  | MARKER
  | CUE_POINT
  | PROGRAM_NAME
  | DEVICE_NAME
  | CHANNEL_PREFIX
  | PORT
  | END_OF_TRACK
  | SET_TEMPO
  | SMPTE_OFFSET
  | TIME_SIGNATURE
  | KEY_SIGNATURE
  | SEQUENCER_SPECIFIC
deriving DecidableEq, Repr

/-- The `_EVENT_TYPE_ORDER` dictionary of `midi.py` as a function. -/
def EVENT_TYPE_ORDER : EventType → ℕ
  | EventType.NOTE_OFF => 10
  | EventType.NOTE_ON => 100
  | EventType.POLYPHONIC_KEY_PRESSURE => 40
  | EventType.CONTROLLER_CHANGE => 2
  | EventType.PROGRAM_CHANGE => 1
  | EventType.CHANNEL_KEY_PRESSURE => 50
  | EventType.PITCH_BEND => 30
  | EventType.F0_SYSEX => 0
  | EventType.F7_SYSEX => 0
  | EventType.META => 0

/-- The event data dictionary.  The Python source stores a per-event-type
dictionary; here every key used by the converter is a field (unused fields
simply keep their filler value for a given event type).  The source reads the
key `value` both for controller values (an int) and for pitch-bend amounts
(a float in -1..1); these are the separate fields `value` and `amount` here. -/
structure EventData where
  note : ℕ
  velocity : ℕ
  controller : ℕ
  value : ℕ
  program : ℕ
  amount : ℚ
  bpm : ℚ
  meta_type : MetaType
deriving DecidableEq, Repr

/-- An all-filler event data record, mirroring an empty data dictionary. -/
def emptyData : EventData :=
  { note := 0, velocity := 0, controller := 0, value := 0, program := 0,
    amount := 0, bpm := 0, meta_type := MetaType.END_OF_TRACK }

/-- A song event, from `midi.py` `SongEvent`.  `time` is in beats. -/
structure SongEvent where
  index : ℕ
  track : ℕ
  time : ℚ
  type : EventType
  data : EventData
  channel : Option ℕ
deriving DecidableEq, Repr

/-- Modelled from the spec: `SongEvent.is_percussion` is referenced by the
converter but absent from `midi.py` in this snapshot.  Per the spec, a channel
is percussion when its number equals the MIDI percussion channel (index 9). -/
def SongEvent.is_percussion (e : SongEvent) : Bool :=
  e.channel == some 9

/-- The channel comparison key of `SongEvent.__lt__`:
non-channel events compare as -1, below all channel numbers. -/
def channelKey (e : SongEvent) : ℤ :=
  match e.channel with
  | none => -1
  | some c => (c : ℤ)

/-- `SongEvent.__lt__` from `midi.py`: lexicographic on time, then
`_EVENT_TYPE_ORDER`, then channel (None first), then track, then index. -/
def songEventLt (a b : SongEvent) : Bool :=
  if a.time < b.time then true
  else if a.time > b.time then false
  else if EVENT_TYPE_ORDER a.type < EVENT_TYPE_ORDER b.type then true
  else if EVENT_TYPE_ORDER a.type > EVENT_TYPE_ORDER b.type then false
  else if channelKey a < channelKey b then true
  else if channelKey a > channelKey b then false
  else if a.track < b.track then true
  else if a.track > b.track then false
  else decide (a.index < b.index)

/-- The non-strict order used when sorting: `a` may precede `b` exactly when
`not (b < a)`, which is what a stable sort on `__lt__` guarantees. -/
def songEventLe (a b : SongEvent) : Bool :=
  !songEventLt b a

/-- Reassignment of indices after sorting, from `MidiSongFile.sort`:
`self.events[index].index = index` for `index in range(len(self.events))`. -/
def reindexEvents (l : List SongEvent) : List SongEvent :=
  ((List.range l.length).zip l).map (fun p => { p.2 with index := p.1 })

/-- `MidiSongFile.sort` from `plugins/__init__.py`: sort the events with the
`SongEvent` order, then renumber the indices 0..N-1. -/
def sortSongEvents (l : List SongEvent) : List SongEvent :=
  reindexEvents (l.mergeSort songEventLe)

/-- One lexicographic layer: strictly below on the first component, or equal
there and related by `S` on the rest. -/
def lexStep {α β : Type} [LT α] (S : β → β → Prop) (a b : α × β) : Prop :=
  a.1 < b.1 ∨ (a.1 = b.1 ∧ S a.2 b.2)

/-- The sort key named by the spec: time, then type priority, then channel
(non-channel events as -1), then track, then original index. -/
def sortKey (e : SongEvent) : ℚ × ℕ × ℤ × ℕ × ℕ :=
  (e.time, EVENT_TYPE_ORDER e.type, channelKey e, e.track, e.index)

/-- The spec's total order on song events: lexicographic on `sortKey`. -/
def specSortLE (a b : SongEvent) : Prop :=
  lexStep (lexStep (lexStep (lexStep (fun i j => i ≤ j)))) (sortKey a) (sortKey b)

/-! ## adlib.py: registers, operators, instruments -/

def OPL_CHANNELS : ℕ := 9

/-- Modulator operator offsets per OPL channel, from `adlib.py`. -/
def MODULATORS : List ℕ := [0, 1, 2, 8, 9, 10, 16, 17, 18]

/-- Carrier operator offsets: `[m + 3 for m in MODULATORS]`. -/
def CARRIERS : List ℕ := MODULATORS.map (· + 3)

def VIBRATO_MSG : ℕ := 0x20
def VOLUME_MSG : ℕ := 0x40
def ATTACK_DECAY_MSG : ℕ := 0x60
def SUSTAIN_RELEASE_MSG : ℕ := 0x80
def FREQ_MSG : ℕ := 0xa0
def BLOCK_MSG : ℕ := 0xb0
def DRUM_MSG : ℕ := 0xbd
def FEEDBACK_MSG : ℕ := 0xc0
def WAVEFORM_SELECT_MSG : ℕ := 0xe0

def KEY_OFF_MASK : ℕ := 0x0
def KEY_ON_MASK : ℕ := 0x20

/-- The 103-entry `(block, f-number)` table of `adlib.py`. -/
def BLOCK_FREQ_NOTE_MAP : List (ℕ × ℕ) := [
  (0, 345), (0, 365), (0, 387), (0, 410), (0, 435), (0, 460),
  (0, 488), (0, 517), (0, 547), (0, 580), (0, 615), (0, 651),
  (0, 690), (0, 731), (0, 774), (0, 820), (0, 869), (0, 921),
  (0, 975), (1, 517), (1, 547), (1, 580), (1, 615), (1, 651),
  (1, 690), (1, 731), (1, 774), (1, 820), (1, 869), (1, 921),
  (1, 975), (2, 517), (2, 547), (2, 580), (2, 615), (2, 651),
  (2, 690), (2, 731), (2, 774), (2, 820), (2, 869), (2, 921),
  (2, 975), (3, 517), (3, 547), (3, 580), (3, 615), (3, 651),
  (3, 690), (3, 731), (3, 774), (3, 820), (3, 869), (3, 921),
  (3, 975), (4, 517), (4, 547), (4, 580), (4, 615), (4, 651),
  (4, 690), (4, 731), (4, 774), (4, 820), (4, 869), (4, 921),
  (4, 975), (5, 517), (5, 547), (5, 580), (5, 615), (5, 651),
  (5, 690), (5, 731), (5, 774), (5, 820), (5, 869), (5, 921),
  (5, 975), (6, 517), (6, 547), (6, 580), (6, 615), (6, 651),
  (6, 690), (6, 731), (6, 774), (6, 820), (6, 869), (6, 921),
  (6, 975), (7, 517), (7, 547), (7, 580), (7, 615), (7, 651),
  (7, 690), (7, 731), (7, 774), (7, 820), (7, 869), (7, 921),
  (7, 975)]

/-- An Adlib operator's five register bytes, from `adlib.py` `AdlibOperator`. -/
structure AdlibOperator where
  tvskm : ℕ
  ksl_output : ℕ
  attack_decay : ℕ
  sustain_release : ℕ
  waveform_select : ℕ
deriving DecidableEq, Repr

/-- The all-zero operator produced by `AdlibOperator()`. -/
def zeroOperator : AdlibOperator :=
  { tvskm := 0, ksl_output := 0, attack_decay := 0, sustain_release := 0,
    waveform_select := 0 }

/-- Bit-property read, from `_create_bit_property` `fget`:
`(getattr(self, var_name) >> shift) & max_value`. -/
def get_bit_field (r : ℕ) (bits shift : ℕ) : ℕ :=
  (r >>> shift) &&& (2 ^ bits - 1)

/-- `_check_range` from `adlib.py`: accepts 0 <= value <= max_value, raises
`ValueError` otherwise.  The distinguished `None` input of the source cannot
be represented for an integer argument. -/
def check_range (value : ℤ) (max_value : ℕ) : Option ℤ :=
  if 0 ≤ value ∧ value ≤ (max_value : ℤ) then some value else none

/-- Bit-property write, from `_create_bit_property` `fset`:
`(reg & ~(max_value << shift)) | (checked_value << shift)`.
For a byte-sized register the Python bitwise complement agrees with the
xor against `0xff` used here. -/
def set_bit_field (r : ℕ) (bits shift : ℕ) (value : ℤ) : Option ℕ :=
  (check_range value (2 ^ bits - 1)).map
    (fun v => (r &&& (255 ^^^ ((2 ^ bits - 1) <<< shift))) ||| (v.toNat <<< shift))

def AdlibOperator.tremolo (op : AdlibOperator) : ℕ := get_bit_field op.tvskm 1 7
def AdlibOperator.vibrato (op : AdlibOperator) : ℕ := get_bit_field op.tvskm 1 6
def AdlibOperator.sustain (op : AdlibOperator) : ℕ := get_bit_field op.tvskm 1 5
def AdlibOperator.ksr (op : AdlibOperator) : ℕ := get_bit_field op.tvskm 1 4
def AdlibOperator.freq_mult (op : AdlibOperator) : ℕ := get_bit_field op.tvskm 4 0
def AdlibOperator.key_scale_level (op : AdlibOperator) : ℕ := get_bit_field op.ksl_output 2 6
def AdlibOperator.output_level (op : AdlibOperator) : ℕ := get_bit_field op.ksl_output 6 0
def AdlibOperator.attack_rate (op : AdlibOperator) : ℕ := get_bit_field op.attack_decay 4 4
def AdlibOperator.decay_rate (op : AdlibOperator) : ℕ := get_bit_field op.attack_decay 4 0
def AdlibOperator.sustain_level (op : AdlibOperator) : ℕ := get_bit_field op.sustain_release 4 4
def AdlibOperator.release_rate (op : AdlibOperator) : ℕ := get_bit_field op.sustain_release 4 0

def AdlibOperator.set_tremolo (op : AdlibOperator) (v : ℤ) : Option AdlibOperator :=
  (set_bit_field op.tvskm 1 7 v).map (fun r => { op with tvskm := r })
def AdlibOperator.set_vibrato (op : AdlibOperator) (v : ℤ) : Option AdlibOperator :=
  (set_bit_field op.tvskm 1 6 v).map (fun r => { op with tvskm := r })
def AdlibOperator.set_sustain (op : AdlibOperator) (v : ℤ) : Option AdlibOperator :=
  (set_bit_field op.tvskm 1 5 v).map (fun r => { op with tvskm := r })
def AdlibOperator.set_ksr (op : AdlibOperator) (v : ℤ) : Option AdlibOperator :=
  (set_bit_field op.tvskm 1 4 v).map (fun r => { op with tvskm := r })
def AdlibOperator.set_freq_mult (op : AdlibOperator) (v : ℤ) : Option AdlibOperator :=
  (set_bit_field op.tvskm 4 0 v).map (fun r => { op with tvskm := r })
def AdlibOperator.set_key_scale_level (op : AdlibOperator) (v : ℤ) : Option AdlibOperator :=
  (set_bit_field op.ksl_output 2 6 v).map (fun r => { op with ksl_output := r })
def AdlibOperator.set_output_level (op : AdlibOperator) (v : ℤ) : Option AdlibOperator :=
  (set_bit_field op.ksl_output 6 0 v).map (fun r => { op with ksl_output := r })
def AdlibOperator.set_attack_rate (op : AdlibOperator) (v : ℤ) : Option AdlibOperator :=
  (set_bit_field op.attack_decay 4 4 v).map (fun r => { op with attack_decay := r })
def AdlibOperator.set_decay_rate (op : AdlibOperator) (v : ℤ) : Option AdlibOperator :=
  (set_bit_field op.attack_decay 4 0 v).map (fun r => { op with attack_decay := r })
def AdlibOperator.set_sustain_level (op : AdlibOperator) (v : ℤ) : Option AdlibOperator :=
  (set_bit_field op.sustain_release 4 4 v).map (fun r => { op with sustain_release := r })
def AdlibOperator.set_release_rate (op : AdlibOperator) (v : ℤ) : Option AdlibOperator :=
  (set_bit_field op.sustain_release 4 0 v).map (fun r => { op with sustain_release := r })

/-- An Adlib instrument, from `adlib.py` `AdlibInstrument`.  Per-voice data
is stored in lists indexed by voice number, as in the source. -/
structure AdlibInstrument where
  use_given_note : Bool
  use_secondary_voice : Bool
  fine_tuning : ℕ
  given_note : ℕ
  modulator : List AdlibOperator
  carrier : List AdlibOperator
  feedback : List ℕ
  note_offset : List ℤ
deriving DecidableEq, Repr

/-- `AdlibInstrument.get_regs`: the per-voice register/value pairs for one
OPL channel. -/
def AdlibInstrument.get_regs (inst : AdlibInstrument) (channel voice : ℕ) :
    List (ℕ × ℕ) :=
  let mod_op := MODULATORS.getD channel 0
  let car_op := CARRIERS.getD channel 0
  let m := inst.modulator.getD voice zeroOperator
  let c := inst.carrier.getD voice zeroOperator
  [(VIBRATO_MSG ||| mod_op, m.tvskm),
   (VOLUME_MSG ||| mod_op, m.ksl_output),
   (ATTACK_DECAY_MSG ||| mod_op, m.attack_decay),
   (SUSTAIN_RELEASE_MSG ||| mod_op, m.sustain_release),
   (WAVEFORM_SELECT_MSG ||| mod_op, m.waveform_select),
   (VIBRATO_MSG ||| car_op, c.tvskm),
   (VOLUME_MSG ||| car_op, c.ksl_output),
   (ATTACK_DECAY_MSG ||| car_op, c.attack_decay),
   (SUSTAIN_RELEASE_MSG ||| car_op, c.sustain_release),
   (WAVEFORM_SELECT_MSG ||| car_op, c.waveform_select),
   (FEEDBACK_MSG ||| channel, inst.feedback.getD voice 0)]

/-! ## imffileplugin.py: the IMF writer -/

/-- `ImfSong._MAXIMUM_COMMAND_COUNT = 65535 // 4`. -/
def MAXIMUM_COMMAND_COUNT : ℕ := 65535 / 4

/-- The command count actually written by `_save_file` for an `imf1` file:
capped at `_MAXIMUM_COMMAND_COUNT` (with a logged warning when over). -/
def imf1_command_count (n : ℕ) : ℕ :=
  if n > MAXIMUM_COMMAND_COUNT then MAXIMUM_COMMAND_COUNT else n

/-- `struct.pack("<H", n)`: two little-endian bytes. -/
def pack_u16_le (n : ℕ) : List ℕ := [n % 256, n / 256 % 256]

/-- The `imf1` branch of `ImfSong._save_file`: the two-byte length prefix
(`command_count * 4` packed little-endian) followed by the commands actually
written (`self._commands[0:command_count]`).  The optional metadata tag block
written afterwards is not modelled. -/
def save_file_imf1 (commands : List (ℕ × ℕ × ℤ)) :
    List ℕ × List (ℕ × ℕ × ℤ) :=
  let command_count := imf1_command_count commands.length
  (pack_u16_le (command_count * 4), commands.take command_count)

/-! ## imffileplugin.py: converter state -/

/-- `calculate_msb_lsb` from `plugins/_midiengine.py`: `(msb << 7) + lsb`. -/
def calculate_msb_lsb (msb lsb : ℕ) : ℕ := (msb <<< 7) + lsb

/-- `_GM_DRUM_BANK = calculate_msb_lsb(120, 0)`. -/
def GM_DRUM_BANK : ℕ := calculate_msb_lsb 120 0

/-- `_XG_DRUM_BANK = calculate_msb_lsb(127, 0)`. -/
def XG_DRUM_BANK : ℕ := calculate_msb_lsb 127 0

/-- `_DRUM_BANKS` from `imffileplugin.py`. -/
def DRUM_BANKS : List ℕ := [GM_DRUM_BANK, XG_DRUM_BANK]

/-- Python `int()` truncation toward zero of an exact rational. -/
def pyTrunc (q : ℚ) : ℤ :=
  if 0 ≤ q then ⌊q⌋ else -⌊-q⌋

/-- Python negative-index list access: `l[i]` with wrap-around from the end
for `i < 0`.  Out-of-range access raises in Python and is never reached by
the converter on in-range notes; the fallback entry stands in for it. -/
def pyListGet (l : List (ℕ × ℕ)) (i : ℤ) : ℕ × ℕ :=
  if i < 0 then l.getD (l.length - (-i).toNat) (0, 0) else l.getD i.toNat (0, 0)

/-- Per-MIDI-channel converter state, from `_MidiChannelInfo`.
The `rpn` dictionary of the source is initialized but never read by the
conversion routines and is omitted.  `__init__` never creates the
`scaled_pitch_bend` attribute: only the pitch-bend handler assigns it, so it
is an `Option` that starts out absent, and reading it while absent is the
source's `AttributeError`. -/
structure MidiChannelInfo where
  number : ℕ
  instrument : Option ℕ
  active_notes : List (ℕ × SongEvent)
  pitch_bend : ℚ
  scaled_pitch_bend : Option ℚ
  controllers : ℕ → ℕ

/-- `_MidiChannelInfo.reset_controllers`: zero all controllers, then set
volume 100, brightness 127, expression 127 and the null RPN selector. -/
def reset_controllers (mc : MidiChannelInfo) : MidiChannelInfo :=
  { mc with controllers := fun c =>
      if c = 7 then 100
      else if c = 74 then 127
      else if c = 11 then 127
      else if c = 101 then 127
      else if c = 100 then 127
      else 0 }

/-- `_MidiChannelInfo.__init__` followed by `reset_controllers`. -/
def initMidiChannel (n : ℕ) : MidiChannelInfo :=
  reset_controllers
    { number := n, instrument := none, active_notes := [], pitch_bend := 0,
      scaled_pitch_bend := none, controllers := fun _ => 0 }

/-- `_MidiChannelInfo.get_bank`: `calculate_msb_lsb(controllers[0], controllers[32])`. -/
def get_bank (mc : MidiChannelInfo) : ℕ :=
  calculate_msb_lsb (mc.controllers 0) (mc.controllers 32)

/-- Per-OPL-channel converter state, from `_ImfChannelInfo`. -/
structure ImfChannelInfo where
  number : ℕ
  instrument : Option AdlibInstrument
  last_note : Option ℕ
deriving DecidableEq, Repr

/-- The converter state of `ImfSong._convert_from`: the command buffer, the
256-entry register shadow `regs`, the 16 MIDI channel infos, the OPL channel
infos, and the tempo bookkeeping variables. -/
structure ConvState where
  commands : List (ℕ × ℕ × ℤ)
  regs : ℕ → Option ℕ
  midi_channels : ℕ → MidiChannelInfo
  imf_channels : List ImfChannelInfo
  song_ticks : ℕ
  ticks_per_beat : ℚ
  last_command_ticks : ℤ
  tempo_start_time : ℚ

/-- The state set up at the top of `_convert_from`:
`imf_channels = [_ImfChannelInfo(ch) for ch in range(1, 9)]`,
`regs = [None] * 256`, 16 fresh MIDI channels, zeroed tempo state. -/
def initConvState (song_ticks : ℕ) : ConvState :=
  { commands := [],
    regs := fun _ => none,
    midi_channels := fun ch => initMidiChannel ch,
    imf_channels := (List.range' 1 8).map
      (fun n => { number := n, instrument := none, last_note := none }),
    song_ticks := song_ticks,
    ticks_per_beat := 0,
    last_command_ticks := 0,
    tempo_start_time := 0 }

/-- Pointwise update of one MIDI channel slot. -/
def updateMidiChannel (st : ConvState) (ch : ℕ) (f : MidiChannelInfo → MidiChannelInfo) :
    ConvState :=
  { st with midi_channels := fun c => if c = ch then f (st.midi_channels c) else st.midi_channels c }

/-- Update of the OPL channel object found by a search; OPL channel numbers
1..8 are distinct, so updating by number models the source's in-place object
mutation. -/
def setImfChannel (st : ConvState) (n : ℕ) (f : ImfChannelInfo → ImfChannelInfo) :
    ConvState :=
  { st with imf_channels := st.imf_channels.map (fun c => if c.number = n then f c else c) }

/-! ## imffileplugin.py: converter helper functions -/

/-- `set_tempo` from `_convert_from`:
`ticks_per_beat = song.ticks * (60.0 / bpm); tempo_start_time = event_time`. -/
def set_tempo (st : ConvState) (bpm : ℚ) (event_time : ℚ) : ConvState :=
  { st with ticks_per_beat := (st.song_ticks : ℚ) * (60 / bpm),
            tempo_start_time := event_time }

/-- `calc_imf_ticks`: `int(ticks_per_beat * value)`. -/
def calc_imf_ticks (st : ConvState) (value : ℚ) : ℤ :=
  pyTrunc (st.ticks_per_beat * value)

/-- Replace the delay component of the command at a position, keeping
register and value. -/
def set_command_delay (cmds : List (ℕ × ℕ × ℤ)) (i : ℕ) (d : ℤ) :
    List (ℕ × ℕ × ℤ) :=
  match cmds[i]? with
  | some c => cmds.set i (c.1, c.2.1, d)
  | none => cmds

/-- `add_delay` from `_convert_from`: compute the ticks since the last tempo
change, store `ticks - last_command_ticks` as the delay of the command at
`command_index` (a Python index, negative values count from the end), and
remember `last_command_ticks = ticks`. -/
def add_delay (st : ConvState) (time : ℚ) (command_index : ℤ) : ConvState :=
  let ticks := calc_imf_ticks st (time - st.tempo_start_time)
  let idx : ℤ :=
    if command_index < 0 then (st.commands.length : ℤ) + command_index
    else command_index
  { st with
    commands := set_command_delay st.commands idx.toNat (ticks - st.last_command_ticks),
    last_command_ticks := ticks }

/-- `is_percussion_event`: the event's own percussion flag, or the channel's
bank being one of the drum banks. -/
def is_percussion_event (st : ConvState) (ev : SongEvent) : Bool :=
  ev.is_percussion || decide (get_bank (st.midi_channels (ev.channel.getD 0)) ∈ DRUM_BANKS)

/-- `find_imf_channel`: first OPL channel already on this instrument and not
playing, else first OPL channel not playing, else None.  The `note` argument
is unused, as in the source. -/
def find_imf_channel (imf_channels : List ImfChannelInfo)
    (instrument : AdlibInstrument) (note : ℕ) : Option ImfChannelInfo :=
  match imf_channels.find? (fun ch => ch.instrument == some instrument && ch.last_note == none) with
  | some channel => some channel
  | none => imf_channels.find? (fun ch => ch.last_note == none)

/-- `find_imf_channel_for_instrument_note`: the OPL channel currently holding
this instrument and note. -/
def find_imf_channel_for_instrument_note (imf_channels : List ImfChannelInfo)
    (instrument : Option AdlibInstrument) (note : ℕ) : Option ImfChannelInfo :=
  imf_channels.find? (fun ch => ch.instrument == instrument && ch.last_note == some note)

/-- `add_command` from `_convert_from`: a no-op when the register shadow
already holds the value; otherwise assert the ranges (raising on failure),
update the shadow, and append `(reg, value, delay)`. -/
def add_command (st : ConvState) (reg value : ℕ) (delay : ℤ) :
    Except String ConvState :=
  if st.regs reg = some value then Except.ok st
  else if reg ≤ 0xff ∧ value ≤ 0xff ∧ 0 ≤ delay ∧ delay ≤ 0xffff then
    Except.ok { st with
      regs := fun r => if r = reg then some value else st.regs r,
      commands := st.commands ++ [(reg, value, delay)] }
  else Except.error "Value out of range!"

/-- The `for command in commands: add_command(*command)` loop of
`process_events`; every handler-produced command carries delay 0. -/
def add_commands (st : ConvState) : List (ℕ × ℕ) → Except String ConvState
  | [] => Except.ok st
  | c :: rest =>
    match add_command st c.1 c.2 0 with
    | Except.error e => Except.error e
    | Except.ok st' => add_commands st' rest

/-- The `while note >= len(BLOCK_FREQ_NOTE_MAP): note -= 12` loop of
`get_block_and_freq`. -/
def reduceNote (note : ℕ) : ℕ :=
  if h : note ≥ BLOCK_FREQ_NOTE_MAP.length then reduceNote (note - 12) else note
decreasing_by
  simp [BLOCK_FREQ_NOTE_MAP] at h
  omega

/-- `get_block_and_freq` from `_convert_from`: table lookup plus the
pitch-bend interpolation, with the source's assertions on the note input and
on the resulting block/f-number ranges. -/
def get_block_and_freq (note : ℕ) (scaled_pitch_bend : ℚ) :
    Except String (ℕ × ℕ) :=
  if ¬note < 128 then Except.error "assert note < 128"
  else
    let note := reduceNote note
    let bf := BLOCK_FREQ_NOTE_MAP.getD note (0, 0)
    let block := bf.1
    let freq : ℚ := (bf.2 : ℚ)
    let result : ℕ × ℤ :=
      if scaled_pitch_bend < 0 then
        let semitones : ℤ := ⌊scaled_pitch_bend⌋
        let bb := pyListGet BLOCK_FREQ_NOTE_MAP ((note : ℤ) + semitones)
        let bend_freq : ℚ :=
          if bb.1 < block then (bb.2 : ℚ) / 2 ^ (block - bb.1) else (bb.2 : ℚ)
        (block, pyTrunc (freq + (bend_freq - freq) * scaled_pitch_bend / (semitones : ℚ)))
      else if scaled_pitch_bend > 0 then
        let semitones : ℤ := ⌈scaled_pitch_bend⌉
        let bb := pyListGet BLOCK_FREQ_NOTE_MAP ((note : ℤ) + semitones)
        let block2 := if bb.1 > block then bb.1 else block
        let freq2 : ℚ := if bb.1 > block then freq / 2 ^ (bb.1 - block) else freq
        (block2, pyTrunc (freq2 + ((bb.2 : ℚ) - freq2) * scaled_pitch_bend / (semitones : ℚ)))
      else (block, (bf.2 : ℤ))
    if result.1 ≤ 7 ∧ 0 ≤ result.2 ∧ result.2 ≤ 0x3ff then
      Except.ok (result.1, result.2.toNat)
    else Except.error "assert block and freq in range"

/-- Exception-propagating sequencing: run the continuation on a success,
propagate a raised error unchanged.  This is the Python control flow of a
call followed by more statements. -/
def ebind {α β : Type} (E : Except String α) (K : α → Except String β) :
    Except String β :=
  match E with
  | Except.error e => Except.error e
  | Except.ok x => K x

/-- `instruments.get` from `instruments.py` over an abstract catalog mapping:
validate the arguments (raising `ValueError` on bad ones, as
`_validate_args` does), and fall back to bank 0 when a nonzero bank has no
entry.  Instrument types: 0 = MELODIC, 1 = PERCUSSION. -/
def instruments_get (catalog : ℕ → ℕ → ℕ → Option AdlibInstrument)
    (inst_type bank program : ℕ) : Except String (Option AdlibInstrument) :=
  if ¬(inst_type = 0 ∨ inst_type = 1) then Except.error "inst_type must be 0 or 1."
  else if bank > 16383 then Except.error "bank must be 0 through 16383."
  else if program > 127 then Except.error "program must be 0 through 127."
  else if bank > 0 ∧ catalog inst_type bank program = none then
    Except.ok (catalog inst_type 0 program)
  else Except.ok (catalog inst_type bank program)

/-- `get_event_instrument`: percussion events look up a percussion instrument
by note; melodic events use the channel's program, defaulting an unassigned
channel to program 0 (with a warning) as the source does. -/
def get_event_instrument (catalog : ℕ → ℕ → ℕ → Option AdlibInstrument)
    (st : ConvState) (ev : SongEvent) :
    Except String (ConvState × Option AdlibInstrument) :=
  let ch := ev.channel.getD 0
  let midi_channel := st.midi_channels ch
  let bank := get_bank midi_channel
  if is_percussion_event st ev then
    ebind (instruments_get catalog 1 bank ev.data.note)
      (fun inst => Except.ok (st, inst))
  else
    match midi_channel.instrument with
    | none =>
      let st := updateMidiChannel st ch (fun mc => { mc with instrument := some 0 })
      ebind (instruments_get catalog 0 bank 0)
        (fun inst => Except.ok (st, inst))
    | some inst_num =>
      ebind (instruments_get catalog 0 bank inst_num)
        (fun inst => Except.ok (st, inst))

/-- `get_instrument_note`: the given note for percussion-style instruments,
else the event note, plus the voice's note offset; out-of-range results are
replaced by 60 (with a logged error). -/
def get_instrument_note (instrument : AdlibInstrument) (ev : SongEvent)
    (voice : ℕ) : ℕ :=
  let note : ℤ :=
    (if instrument.use_given_note then (instrument.given_note : ℤ)
     else (ev.data.note : ℤ)) + instrument.note_offset.getD voice 0
  if note < 0 ∨ note > 127 then 60 else note.toNat

/-- The `volume_table` of `get_volume_commands`. -/
def volume_table : List ℕ := [
  0, 1, 3, 5, 6, 8, 10, 11,
  13, 14, 16, 17, 19, 20, 22, 23,
  25, 26, 27, 29, 30, 32, 33, 34,
  36, 37, 39, 41, 43, 45, 47, 49,
  50, 52, 54, 55, 57, 59, 60, 61,
  63, 64, 66, 67, 68, 69, 71, 72,
  73, 74, 75, 76, 77, 79, 80, 81,
  82, 83, 84, 84, 85, 86, 87, 88,
  89, 90, 91, 92, 92, 93, 94, 95,
  96, 96, 97, 98, 99, 99, 100, 101,
  101, 102, 103, 103, 104, 105, 105, 106,
  107, 107, 108, 109, 109, 110, 110, 111,
  112, 112, 113, 113, 114, 114, 115, 115,
  116, 117, 117, 118, 118, 119, 119, 120,
  120, 121, 121, 122, 122, 123, 123, 123,
  124, 124, 125, 125, 126, 126, 127, 127]

/-- `get_operator_volume` (closure over `midi_volume`):
`n = 0x3f - (op_volume & 0x3f); n = ((n * 2) * volume_table[midi_volume]) >> 8;
return 0x3f - n`. -/
def get_operator_volume (midi_volume op_volume : ℕ) : ℕ :=
  let n := 0x3f - (op_volume &&& 0x3f)
  let n := ((n * 2) * volume_table.getD midi_volume 0) >>> 8
  0x3f - n

/-- The nearest integer to the square root of a natural number; `Nat.sqrt` is
the floor, and the true root exceeds `s + 1/2` exactly when `m > s * s + s`. -/
def round_sqrt (m : ℕ) : ℕ :=
  let s := Nat.sqrt m
  if m ≤ s * s + s then s else s + 1

/-- The brightness factor
`int(round(127.0 * math.sqrt(midi_brightness / 127.0)) / 2.0)` of
`get_operator_brightness`: `127 * sqrt(b / 127) = sqrt(127 * b)`, rounded to
the nearest integer and then halved with truncation. -/
def brightnessFactor (midi_brightness : ℕ) : ℕ :=
  round_sqrt (127 * midi_brightness) / 2

/-- `get_operator_brightness` (closure over `midi_brightness`). -/
def get_operator_brightness (midi_brightness op_volume : ℕ) : ℕ :=
  if midi_brightness = 127 then op_volume &&& 0x3f
  else
    let n := 0x3f - (op_volume &&& 0x3f)
    let n := (n * brightnessFactor midi_brightness) / 0x3f
    0x3f - n

/-- `get_volume_commands` from `_convert_from`: combine channel volume,
expression and velocity into one MIDI volume; volume-scale the carrier
always, and the modulator exactly when the feedback byte has its low
(connection) bit set; brightness-scale the modulator otherwise. -/
def get_volume_commands (channel : ImfChannelInfo) (instrument : AdlibInstrument)
    (midi_channel : MidiChannelInfo) (note_velocity : ℕ) (voice : ℕ) :
    List (ℕ × ℕ) :=
  let midi_volume :=
    (midi_channel.controllers 7 * midi_channel.controllers 11 * note_velocity) / 16129
  let midi_volume := if midi_volume > 127 then 127 else midi_volume
  let midi_brightness := midi_channel.controllers 74
  let midi_brightness := if midi_brightness ≥ 64 then 127 else midi_brightness * 2
  let m := instrument.modulator.getD voice zeroOperator
  let c := instrument.carrier.getD voice zeroOperator
  let modulator_volume :=
    if instrument.feedback.getD voice 0 &&& 0x01 ≠ 0 then
      get_operator_volume midi_volume m.output_level
    else
      get_operator_brightness midi_brightness m.output_level
  let carrier_volume := get_operator_volume midi_volume c.output_level
  [(VOLUME_MSG ||| MODULATORS.getD channel.number 0,
      modulator_volume ||| (m.key_scale_level <<< 6)),
   (VOLUME_MSG ||| CARRIERS.getD channel.number 0,
      carrier_volume ||| (c.key_scale_level <<< 6))]

/-! ## imffileplugin.py: event handlers -/

/-- `note_off` from `_convert_from`.  For non-percussion events the matching
active note must exist; otherwise the source raises
`ValueError("Tried to remove non-active note: ...")`.  When an OPL channel
holds the note, its key-on bit is cleared by masking the shadowed block
register value (`regs[...] & ~KEY_ON_MASK`); the shadow entry is always
present on that path, so the 0 fallback is never read. -/
def note_off (catalog : ℕ → ℕ → ℕ → Option AdlibInstrument) (st : ConvState)
    (ev : SongEvent) : Except String (ConvState × Option (List (ℕ × ℕ))) :=
  ebind (get_event_instrument catalog st ev) (fun p =>
    match p.2 with
    | none => Except.ok (p.1, none)
    | some instrument =>
      let st := p.1
      let voice := 0
      let note0 := get_instrument_note instrument ev voice
      let found : Except String (ConvState × ℕ) :=
        if is_percussion_event st ev then Except.ok (st, note0)
        else
          let ch := ev.channel.getD 0
          match (st.midi_channels ch).active_notes.find?
              (fun note_info => note_info.2.data.note == ev.data.note) with
          | some m =>
            Except.ok
              (updateMidiChannel st ch
                (fun mc => { mc with active_notes := mc.active_notes.erase m }),
               m.1)
          | none => Except.error "Tried to remove non-active note"
      ebind found (fun q =>
        match find_imf_channel_for_instrument_note q.1.imf_channels
            (some instrument) q.2 with
        | some channel =>
          let st := setImfChannel q.1 channel.number
            (fun c => { c with last_note := none })
          Except.ok (st, some
            [(BLOCK_MSG ||| channel.number,
              ((st.regs (BLOCK_MSG ||| channel.number)).getD 0) ^^^
                (((st.regs (BLOCK_MSG ||| channel.number)).getD 0) &&& KEY_ON_MASK))])
        | none => Except.ok (q.1, some [])))

/-- `note_on` from `_convert_from`.  The source sets `channel.instrument`
only when it changed; setting it unconditionally to the same value is the
identical state and is done unconditionally here.  Reading
`midi_channel.scaled_pitch_bend` before any pitch-bend handler has assigned
it raises `AttributeError` in the source. -/
def note_on (catalog : ℕ → ℕ → ℕ → Option AdlibInstrument) (st : ConvState)
    (ev : SongEvent) : Except String (ConvState × Option (List (ℕ × ℕ))) :=
  ebind (get_event_instrument catalog st ev) (fun p =>
    match p.2 with
    | none => Except.ok (p.1, none)
    | some instrument =>
      let voice := 0
      let ch := ev.channel.getD 0
      let note := get_instrument_note instrument ev voice
      let st :=
        if ¬is_percussion_event p.1 ev then
          updateMidiChannel p.1 ch
            (fun mc => { mc with active_notes := mc.active_notes ++ [(note, ev)] })
        else p.1
      match find_imf_channel st.imf_channels instrument note with
      | none => Except.ok (st, some [])
      | some channel =>
        let setup :=
          if channel.instrument ≠ some instrument then
            (instrument.get_regs channel.number voice).filter
              (fun cmd => (cmd.1 &&& 0xf0) ≠ VOLUME_MSG)
          else []
        let st := setImfChannel st channel.number
          (fun c => { c with instrument := some instrument, last_note := some note })
        match (st.midi_channels ch).scaled_pitch_bend with
        | none => Except.error
            "AttributeError: _MidiChannelInfo object has no attribute scaled_pitch_bend"
        | some spb =>
          ebind (get_block_and_freq note spb)
          (fun bf =>
            Except.ok (st, some (setup ++
              get_volume_commands channel instrument (st.midi_channels ch)
                ev.data.velocity voice ++
              [(FREQ_MSG ||| channel.number, bf.2 &&& 0xff),
               (BLOCK_MSG ||| channel.number,
                KEY_ON_MASK ||| (bf.1 <<< 2) ||| (bf.2 >>> 8))]))))

/-- The `for note_info in midi_channel.active_notes` loop of `pitch_bend`:
re-emit the frequency registers of every active note (notes whose OPL channel
cannot be found are skipped with a logged warning). -/
def pitch_bend_notes (imf_channels : List ImfChannelInfo)
    (instrument : Option AdlibInstrument) (scaled_pitch_bend : ℚ) :
    List (ℕ × SongEvent) → Except String (List (ℕ × ℕ))
  | [] => Except.ok []
  | note_info :: rest =>
    match find_imf_channel_for_instrument_note imf_channels instrument note_info.1 with
    | some channel =>
      match get_block_and_freq note_info.1 scaled_pitch_bend with
      | Except.error e => Except.error e
      | Except.ok bf =>
        match pitch_bend_notes imf_channels instrument scaled_pitch_bend rest with
        | Except.error e => Except.error e
        | Except.ok cs =>
          Except.ok ([(FREQ_MSG ||| channel.number, bf.2 &&& 0xff),
            (BLOCK_MSG ||| channel.number,
             KEY_ON_MASK ||| (bf.1 <<< 2) ||| (bf.2 >>> 8))] ++ cs)
    | none => pitch_bend_notes imf_channels instrument scaled_pitch_bend rest

/-- `pitch_bend` from `_convert_from`: ignored for percussion; on an actual
change, scale the -1..1 amount by the default two-semitone sensitivity,
remember it, and re-emit every active note. -/
def pitch_bend (catalog : ℕ → ℕ → ℕ → Option AdlibInstrument) (st : ConvState)
    (ev : SongEvent) : Except String (ConvState × Option (List (ℕ × ℕ))) :=
  if is_percussion_event st ev then Except.ok (st, none)
  else
    let amount := ev.data.amount
    let ch := ev.channel.getD 0
    if (st.midi_channels ch).pitch_bend = amount then Except.ok (st, some [])
    else
      let scaled_pitch_bend := amount * 2
      let st := updateMidiChannel st ch
        (fun mc => { mc with pitch_bend := amount, scaled_pitch_bend := some scaled_pitch_bend })
      ebind (get_event_instrument catalog st ev) (fun p =>
        ebind (pitch_bend_notes p.1.imf_channels p.2 scaled_pitch_bend
            (p.1.midi_channels ch).active_notes)
          (fun cs => Except.ok (p.1, some cs)))

/-- The `for note_info in midi_channel.active_notes` loop of `adjust_volume`.
A matching OPL channel while the instrument lookup returned `None` would be an
`AttributeError` in the source; the state invariants make it unreachable. -/
def adjust_volume_notes (imf_channels : List ImfChannelInfo)
    (instrument : Option AdlibInstrument) (midi_channel : MidiChannelInfo) :
    List (ℕ × SongEvent) → Except String (List (ℕ × ℕ))
  | [] => Except.ok []
  | note_info :: rest =>
    match find_imf_channel_for_instrument_note imf_channels instrument note_info.1 with
    | some imf_channel =>
      match instrument with
      | none => Except.error "AttributeError: NoneType has no volume registers"
      | some inst =>
        match adjust_volume_notes imf_channels instrument midi_channel rest with
        | Except.error e => Except.error e
        | Except.ok cs =>
          Except.ok (get_volume_commands imf_channel inst midi_channel
            note_info.2.data.velocity 0 ++ cs)
    | none => adjust_volume_notes imf_channels instrument midi_channel rest

/-- `adjust_volume` from `_convert_from`: skipped for percussion events;
with active notes present, re-emit the volume registers of each. -/
def adjust_volume (catalog : ℕ → ℕ → ℕ → Option AdlibInstrument) (st : ConvState)
    (ev : SongEvent) : Except String (ConvState × Option (List (ℕ × ℕ))) :=
  if ev.is_percussion then Except.ok (st, none)
  else
    let ch := ev.channel.getD 0
    if (st.midi_channels ch).active_notes = [] then Except.ok (st, some [])
    else
      ebind (get_event_instrument catalog st ev) (fun p =>
        ebind (adjust_volume_notes p.1.imf_channels p.2 (p.1.midi_channels ch)
            (p.1.midi_channels ch).active_notes)
          (fun cs => Except.ok (p.1, some cs)))

/-! ## imffileplugin.py: the event loop -/

/-- The per-event dispatch of `process_events`: update state, collect the
handler's commands (`None` or a list). -/
def handle_event (catalog : ℕ → ℕ → ℕ → Option AdlibInstrument) (st : ConvState)
    (ev : SongEvent) : Except String (ConvState × Option (List (ℕ × ℕ))) :=
  if ev.type = EventType.NOTE_OFF ∨
      (ev.type = EventType.NOTE_ON ∧ ev.data.velocity = 0) then
    note_off catalog st ev
  else if ev.type = EventType.NOTE_ON then
    note_on catalog st ev
  else if ev.type = EventType.CONTROLLER_CHANGE then
    let controller := ev.data.controller
    let ch := ev.channel.getD 0
    let st := updateMidiChannel st ch (fun mc =>
      { mc with controllers := fun c => if c = controller then ev.data.value else mc.controllers c })
    if controller = 7 ∨ controller = 11 ∨ controller = 74 then
      adjust_volume catalog st ev
    else Except.ok (st, none)
  else if ev.type = EventType.PITCH_BEND then
    pitch_bend catalog st ev
  else if ev.type = EventType.PROGRAM_CHANGE then
    Except.ok (updateMidiChannel st (ev.channel.getD 0)
      (fun mc => { mc with instrument := some ev.data.program }), none)
  else if ev.type = EventType.META ∧ ev.data.meta_type = MetaType.SET_TEMPO then
    Except.ok (set_tempo st ev.data.bpm ev.time, none)
  else Except.ok (st, none)

/-- One iteration of the `process_events` loop: dispatch, and when the
handler produced a non-empty command list, add the commands and set the delay
of the command preceding the new group. -/
def process_event (catalog : ℕ → ℕ → ℕ → Option AdlibInstrument) (st : ConvState)
    (ev : SongEvent) : Except String ConvState :=
  match handle_event catalog st ev with
  | Except.error e => Except.error e
  | Except.ok (st, none) => Except.ok st
  | Except.ok (st, some cmds) =>
    if cmds = [] then Except.ok st
    else
      let old_commands_length := st.commands.length
      match add_commands st cmds with
      | Except.error e => Except.error e
      | Except.ok st =>
        if old_commands_length ≠ st.commands.length then
          Except.ok (add_delay st ev.time ((old_commands_length : ℤ) - 1))
        else Except.ok st

/-- The `for event in events` loop of `process_events`. -/
def run_events (catalog : ℕ → ℕ → ℕ → Option AdlibInstrument) (st : ConvState) :
    List SongEvent → Except String ConvState
  | [] => Except.ok st
  | ev :: rest =>
    match process_event catalog st ev with
    | Except.error e => Except.error e
    | Except.ok st' => run_events catalog st' rest

/-- Python `max()` over a list; raises on an empty sequence. -/
def py_max (l : List ℚ) : Except String ℚ :=
  match l with
  | [] => Except.error "max() arg is an empty sequence"
  | t :: rest => Except.ok (rest.foldl (fun m x => if m < x then x else m) t)

/-- `process_events` from `_convert_from`: run every event, then set the
final wrap-around delay on the last command. -/
def process_events (catalog : ℕ → ℕ → ℕ → Option AdlibInstrument)
    (st : ConvState) (events : List SongEvent) : Except String ConvState :=
  match run_events catalog st events with
  | Except.error e => Except.error e
  | Except.ok st =>
    match py_max (events.map SongEvent.time) with
    | Except.error e => Except.error e
    | Except.ok t => Except.ok (add_delay st t (-1))

/-- `ImfSong._convert_from` over an abstract instrument catalog: default
tempo 120, the three header commands, then the event loop.  `song_ticks` is
the `ImfSong.ticks` rate (700 for the default `imf1` file type). -/
def convert_from (catalog : ℕ → ℕ → ℕ → Option AdlibInstrument)
    (events : List SongEvent) (song_ticks : ℕ) : Except String ConvState :=
  let st := set_tempo (initConvState song_ticks) 120 0
  let st := { st with commands := [(0, 0, 0), (0xBD, 0, 0), (0x8, 0, 0)] }
  process_events catalog st events

/-- The value of the last command in the buffer that targets register `reg`,
if any: what a straight replay of the buffer would leave in that register. -/
def lastRegValue (reg : ℕ) (cmds : List (ℕ × ℕ × ℤ)) : Option ℕ :=
  cmds.foldl (fun acc c => if c.1 = reg then some c.2.1 else acc) none

/-! ## Specification-side definitions and concrete test inputs -/

/-- The per-operator volume formula exactly as the specification words it:
`0x3F - (((0x3F - (output_level & 0x3F)) * VOLUME_TABLE[mv] / 2) >> 6)`. -/
def claim_operator_volume (mv output_level : ℕ) : ℕ :=
  0x3f - (((0x3f - (output_level &&& 0x3f)) * volume_table.getD mv 0 / 2) >>> 6)

/-- Clamping into 0..127 as the specification words it for out-of-range
adjusted notes. -/
def spec_clamped_note (n : ℤ) : ℤ :=
  if n < 0 then 0 else if n > 127 then 127 else n

/-- The correctness contract of one `AdlibOperator` bit property with the
given field width and shift: for an in-range value the setter succeeds, the
field then reads back as the value, all bits of the backing register outside
the field are untouched, and the other state named by `unchanged` is
untouched; for an out-of-range value the setter raises and returns nothing. -/
def FieldSetOk (getReg : AdlibOperator → ℕ)
    (setP : AdlibOperator → ℤ → Option AdlibOperator) (bits shift : ℕ)
    (unchanged : AdlibOperator → AdlibOperator → Prop) : Prop :=
  ∀ (op : AdlibOperator) (v : ℤ), getReg op < 256 →
    ((0 ≤ v ∧ v ≤ ((2 ^ bits - 1 : ℕ) : ℤ)) →
      ∃ op2, setP op v = some op2 ∧
        get_bit_field (getReg op2) bits shift = v.toNat ∧
        (∀ p, ¬(shift ≤ p ∧ p < shift + bits) →
          (getReg op2).testBit p = (getReg op).testBit p) ∧
        unchanged op op2) ∧
    (¬(0 ≤ v ∧ v ≤ ((2 ^ bits - 1 : ℕ) : ℤ)) → setP op v = none)

/-- A pitch-bend event at time 0 used to refute C1 as stated. -/
def c1_pitch_bend_event : SongEvent :=
  { index := 0, track := 0, time := 0, type := EventType.PITCH_BEND,
    data := emptyData, channel := some 0 }

/-- A note-off event at time 0 used to refute C1 as stated. -/
def c1_note_off_event : SongEvent :=
  { index := 1, track := 0, time := 0, type := EventType.NOTE_OFF,
    data := emptyData, channel := some 0 }

/-- A one-voice test instrument: all-zero operators, feedback byte 1
(connection bit set), no note offset. -/
def test_instrument : AdlibInstrument :=
  { use_given_note := false, use_secondary_voice := false, fine_tuning := 0x80,
    given_note := 0, modulator := [zeroOperator], carrier := [zeroOperator],
    feedback := [1], note_offset := [0] }

/-- A test catalog holding `test_instrument` as melodic bank 0 program 0. -/
def test_catalog : ℕ → ℕ → ℕ → Option AdlibInstrument :=
  fun inst_type bank program =>
    if inst_type = 0 ∧ bank = 0 ∧ program = 0 then some test_instrument else none

/-- A set-tempo meta event (120 BPM at time 0). -/
def test_tempo_event : SongEvent :=
  { index := 0, track := 0, time := 0, type := EventType.META,
    data := { emptyData with meta_type := MetaType.SET_TEMPO, bpm := 120 },
    channel := none }

/-- A nonzero pitch bend at time 0 on channel 0: it assigns the channel's
`scaled_pitch_bend` attribute (which `__init__` never creates), so the later
note-on can read it without an `AttributeError`.  With no active notes it
emits no commands, so it leaves the command buffer untouched. -/
def c5_pitch_bend_event : SongEvent :=
  { index := 0, track := 0, time := 0, type := EventType.PITCH_BEND,
    data := { emptyData with amount := 1/2 }, channel := some 0 }

/-- Note-on, C4 velocity 127, channel 0, at beat 1. -/
def c5_note_on_event : SongEvent :=
  { index := 1, track := 0, time := 1, type := EventType.NOTE_ON,
    data := { emptyData with note := 60, velocity := 127 }, channel := some 0 }

/-- Set-tempo to 240 BPM at beat 2. -/
def c5_tempo_event : SongEvent :=
  { index := 2, track := 0, time := 2, type := EventType.META,
    data := { emptyData with meta_type := MetaType.SET_TEMPO, bpm := 240 },
    channel := none }

/-- Note-off, C4, channel 0, at beat 3. -/
def c5_note_off_event : SongEvent :=
  { index := 3, track := 0, time := 3, type := EventType.NOTE_OFF,
    data := { emptyData with note := 60, velocity := 127 }, channel := some 0 }

/-- The C5 failing input: a pitch bend (so the note-on can read the lazily
created `scaled_pitch_bend` attribute), then a note held across a 120-to-240
BPM tempo change. -/
def c5_events : List SongEvent :=
  [c5_pitch_bend_event, c5_note_on_event, c5_tempo_event, c5_note_off_event]

/-- A note-off on channel 0 at time 0 with no preceding note-on. -/
def c6_note_off_event : SongEvent :=
  { index := 0, track := 0, time := 0, type := EventType.NOTE_OFF,
    data := { emptyData with note := 60, velocity := 127 }, channel := some 0 }

/-- The C6 failing input: a note-off on channel 0 with no active note. -/
def c6_events : List SongEvent := [c6_note_off_event]

/-- The register-shadow/buffer agreement property of the spec: every register
with a known shadow value holds the value of the last buffered command that
targets it. -/
def ShadowInv (st : ConvState) : Prop :=
  ∀ R v, st.regs R = some v → lastRegValue R st.commands = some v

/-- A converter state whose shadow already holds value 7 for register 5. -/
def test_shadow_state : ConvState :=
  { initConvState 700 with regs := fun r => if r = 5 then some 7 else none }

/-- A test instrument whose note offset pushes every note far above 127. -/
def c7_instrument : AdlibInstrument :=
  { test_instrument with note_offset := [100] }

/-- A note-on whose adjusted note (100 + 100 = 200) is out of range. -/
def c7_note_on_event : SongEvent :=
  { index := 0, track := 0, time := 0, type := EventType.NOTE_ON,
    data := { emptyData with note := 100, velocity := 127 }, channel := some 0 }

/-- All operator state except the `tvskm` register is unchanged. -/
def unchangedExceptTvskm (a b : AdlibOperator) : Prop :=
  b.ksl_output = a.ksl_output ∧ b.attack_decay = a.attack_decay ∧
  b.sustain_release = a.sustain_release ∧ b.waveform_select = a.waveform_select

/-- All operator state except the `ksl_output` register is unchanged. -/
def unchangedExceptKslOutput (a b : AdlibOperator) : Prop :=
  b.tvskm = a.tvskm ∧ b.attack_decay = a.attack_decay ∧
  b.sustain_release = a.sustain_release ∧ b.waveform_select = a.waveform_select

/-- All operator state except the `attack_decay` register is unchanged. -/
def unchangedExceptAttackDecay (a b : AdlibOperator) : Prop :=
  b.tvskm = a.tvskm ∧ b.ksl_output = a.ksl_output ∧
  b.sustain_release = a.sustain_release ∧ b.waveform_select = a.waveform_select

/-- All operator state except the `sustain_release` register is unchanged. -/
def unchangedExceptSustainRelease (a b : AdlibOperator) : Prop :=
  b.tvskm = a.tvskm ∧ b.ksl_output = a.ksl_output ∧
  b.attack_decay = a.attack_decay ∧ b.waveform_select = a.waveform_select

/-! ## Lemmas: the song event order -/

theorem lexStep_trans {α β : Type} [LinearOrder α] {S : β → β → Prop}
    (hS : ∀ x y z, S x y → S y z → S x z) :
    ∀ x y z : α × β, lexStep S x y → lexStep S y z → lexStep S x z := by
  intro x y z hxy hyz
  rcases hxy with h | ⟨e, hs⟩
  · rcases hyz with h' | ⟨e', hs'⟩
    · exact Or.inl (lt_trans h h')
    · exact Or.inl (e' ▸ h)
  · rcases hyz with h' | ⟨e', hs'⟩
    · exact Or.inl (by rw [e]; exact h')
    · exact Or.inr ⟨e.trans e', hS _ _ _ hs hs'⟩

theorem lexStep_total {α β : Type} [LinearOrder α] {S : β → β → Prop}
    (hS : ∀ x y, S x y ∨ S y x) :
    ∀ x y : α × β, lexStep S x y ∨ lexStep S y x := by
  intro x y
  rcases lt_trichotomy x.1 y.1 with h | h | h
  · exact Or.inl (Or.inl h)
  · rcases hS x.2 y.2 with hs | hs
    · exact Or.inl (Or.inr ⟨h, hs⟩)
    · exact Or.inr (Or.inr ⟨h.symm, hs⟩)
  · exact Or.inr (Or.inl h)

theorem specSortLE_trans :
    ∀ a b c : SongEvent, specSortLE a b → specSortLE b c → specSortLE a c := by
  intro a b c
  unfold specSortLE
  exact fun h1 h2 =>
    lexStep_trans
      (lexStep_trans (lexStep_trans (lexStep_trans
        (fun x y z (hxy : x ≤ y) (hyz : y ≤ z) => le_trans hxy hyz)) ) )
      (sortKey a) (sortKey b) (sortKey c) h1 h2

theorem specSortLE_total :
    ∀ a b : SongEvent, specSortLE a b ∨ specSortLE b a := by
  intro a b
  unfold specSortLE
  exact lexStep_total
    (lexStep_total (lexStep_total (lexStep_total (fun x y => le_total x y))))
    (sortKey a) (sortKey b)

theorem songEventLt_false_iff (a b : SongEvent) :
    songEventLt b a = false ↔ specSortLE a b := by
  unfold songEventLt specSortLE lexStep sortKey
  split_ifs with h1 h2 h3 h4 h5 h6 h7 h8
  · simp only [Bool.true_eq_false, false_iff]
    rintro (h | ⟨e, _⟩)
    · exact absurd h1 (lt_asymm h)
    · exact absurd e (ne_of_gt h1)
  · simp only [eq_self_iff_true, true_iff]
    exact Or.inl h2
  · have e1 : a.time = b.time := le_antisymm (not_lt.mp h1) (not_lt.mp h2)
    simp only [Bool.true_eq_false, false_iff]
    rintro (h | ⟨-, h | ⟨e, -⟩⟩)
    · exact absurd h (e1 ▸ lt_irrefl _)
    · exact absurd h3 (by omega)
    · exact absurd h3 (by omega)
  · have e1 : a.time = b.time := le_antisymm (not_lt.mp h1) (not_lt.mp h2)
    simp only [eq_self_iff_true, true_iff]
    exact Or.inr ⟨e1, Or.inl h4⟩
  · have e1 : a.time = b.time := le_antisymm (not_lt.mp h1) (not_lt.mp h2)
    have e2 : EVENT_TYPE_ORDER a.type = EVENT_TYPE_ORDER b.type := by omega
    simp only [Bool.true_eq_false, false_iff]
    rintro (h | ⟨-, h | ⟨-, h | ⟨e, -⟩⟩⟩)
    · exact absurd h (e1 ▸ lt_irrefl _)
    · omega
    · exact absurd h5 (by omega)
    · exact absurd h5 (by omega)
  · have e1 : a.time = b.time := le_antisymm (not_lt.mp h1) (not_lt.mp h2)
    have e2 : EVENT_TYPE_ORDER a.type = EVENT_TYPE_ORDER b.type := by omega
    simp only [eq_self_iff_true, true_iff]
    exact Or.inr ⟨e1, Or.inr ⟨e2, Or.inl h6⟩⟩
  · have e1 : a.time = b.time := le_antisymm (not_lt.mp h1) (not_lt.mp h2)
    have e2 : EVENT_TYPE_ORDER a.type = EVENT_TYPE_ORDER b.type := by omega
    have e3 : channelKey a = channelKey b := by omega
    simp only [Bool.true_eq_false, false_iff]
    rintro (h | ⟨-, h | ⟨-, h | ⟨-, h | ⟨e, -⟩⟩⟩⟩)
    · exact absurd h (e1 ▸ lt_irrefl _)
    · omega
    · omega
    · exact absurd h7 (by omega)
    · exact absurd h7 (by omega)
  · have e1 : a.time = b.time := le_antisymm (not_lt.mp h1) (not_lt.mp h2)
    have e2 : EVENT_TYPE_ORDER a.type = EVENT_TYPE_ORDER b.type := by omega
    have e3 : channelKey a = channelKey b := by omega
    simp only [eq_self_iff_true, true_iff]
    exact Or.inr ⟨e1, Or.inr ⟨e2, Or.inr ⟨e3, Or.inl h8⟩⟩⟩
  · have e1 : a.time = b.time := le_antisymm (not_lt.mp h1) (not_lt.mp h2)
    have e2 : EVENT_TYPE_ORDER a.type = EVENT_TYPE_ORDER b.type := by omega
    have e3 : channelKey a = channelKey b := by omega
    have e4 : a.track = b.track := by omega
    simp only [decide_eq_false_iff_not, not_lt]
    constructor
    · intro h
      exact Or.inr ⟨e1, Or.inr ⟨e2, Or.inr ⟨e3, Or.inr ⟨e4, h⟩⟩⟩⟩
    · rintro (h | ⟨-, h | ⟨-, h | ⟨-, h | ⟨-, h⟩⟩⟩⟩)
      · exact absurd h (e1 ▸ lt_irrefl _)
      · omega
      · omega
      · omega
      · exact h

theorem songEventLe_iff (a b : SongEvent) :
    songEventLe a b = true ↔ specSortLE a b := by
  unfold songEventLe
  rw [Bool.not_eq_true']
  exact songEventLt_false_iff a b

theorem songEventLe_trans :
    ∀ a b c : SongEvent, songEventLe a b → songEventLe b c → songEventLe a c := by
  intro a b c h1 h2
  rw [songEventLe_iff] at h1 h2 ⊢
  exact specSortLE_trans a b c h1 h2

theorem songEventLe_total :
    ∀ a b : SongEvent, songEventLe a b || songEventLe b a := by
  intro a b
  rcases specSortLE_total a b with h | h
  · have := (songEventLe_iff a b).mpr h
    simp [this]
  · have := (songEventLe_iff b a).mpr h
    simp [this]

theorem mergeSort_events_sorted (l : List SongEvent) :
    (l.mergeSort songEventLe).Pairwise specSortLE := by
  have h := @List.sorted_mergeSort SongEvent songEventLe
    (fun a b c => songEventLe_trans a b c) (fun a b => songEventLe_total a b) l
  exact h.imp (fun hab => (songEventLe_iff _ _).mp hab)

theorem reindex_length (s : List SongEvent) :
    (reindexEvents s).length = s.length := by
  simp [reindexEvents]

theorem reindex_getElem (s : List SongEvent) (i : ℕ) (h : i < s.length)
    (h2 : i < (reindexEvents s).length) :
    (reindexEvents s)[i] = { s[i] with index := i } := by
  simp [reindexEvents]

theorem pairwise_reindex {P : SongEvent → SongEvent → Prop}
    (hP : ∀ a b i j, P a b → P { a with index := i } { b with index := j })
    (s : List SongEvent) (h : s.Pairwise P) : (reindexEvents s).Pairwise P := by
  rw [List.pairwise_iff_getElem] at h ⊢
  intro i j hi hj hij
  have hi2 := hi
  have hj2 := hj
  rw [reindex_length] at hi2 hj2
  rw [reindex_getElem s i hi2 hi, reindex_getElem s j hj2 hj]
  exact hP _ _ _ _ (h i j hi2 hj2 hij)

theorem reindex_map_index (s : List SongEvent) :
    (reindexEvents s).map (fun e => e.index) = List.range s.length := by
  unfold reindexEvents
  rw [List.map_map]
  have : ((fun e => SongEvent.index e) ∘ fun p : ℕ × SongEvent => { p.2 with index := p.1 }) =
      Prod.fst := by
    funext p
    rfl
  rw [this]
  exact List.map_fst_zip _ _ (by simp)

/-- C2: `sort()` produces a permutation of the input ordered by time, then by
the type priority (ProgramChange=1, ControllerChange=2, NoteOff=10,
PitchBend=30, PolyphonicKeyPressure=40, ChannelKeyPressure=50, NoteOn=100,
others=0), then by channel with non-channel events first, then by track, then
by original index; afterwards the index fields are reassigned contiguously
0..N-1 in the sorted order. -/
theorem sort_is_keyed_total_order (l : List SongEvent) :
    List.Perm (l.mergeSort songEventLe) l ∧
    (l.mergeSort songEventLe).Pairwise specSortLE ∧
    sortSongEvents l = reindexEvents (l.mergeSort songEventLe) ∧
    (sortSongEvents l).map (fun e => e.index) = List.range l.length := by
  refine ⟨List.mergeSort_perm l songEventLe, mergeSort_events_sorted l, rfl, ?_⟩
  unfold sortSongEvents
  rw [reindex_map_index]
  rw [(List.mergeSort_perm l songEventLe).length_eq]

/-- C1 (amended): in the sorted event sequence, events at equal times appear
in non-decreasing type priority; the priorities order ProgramChange before
ControllerChange before NoteOff before PitchBend before NoteOn, so at equal
times every ProgramChange precedes every ControllerChange, which precedes
every NoteOff, which precedes every PitchBend, which precedes every NoteOn. -/
theorem sort_equal_time_type_priority (l : List SongEvent) :
    (sortSongEvents l).Pairwise
      (fun a b => a.time = b.time →
        EVENT_TYPE_ORDER a.type ≤ EVENT_TYPE_ORDER b.type) ∧
    EVENT_TYPE_ORDER EventType.PROGRAM_CHANGE <
      EVENT_TYPE_ORDER EventType.CONTROLLER_CHANGE ∧
    EVENT_TYPE_ORDER EventType.CONTROLLER_CHANGE <
      EVENT_TYPE_ORDER EventType.NOTE_OFF ∧
    EVENT_TYPE_ORDER EventType.NOTE_OFF < EVENT_TYPE_ORDER EventType.PITCH_BEND ∧
    EVENT_TYPE_ORDER EventType.PITCH_BEND < EVENT_TYPE_ORDER EventType.NOTE_ON := by
  refine ⟨?_, by decide, by decide, by decide, by decide⟩
  unfold sortSongEvents
  apply pairwise_reindex (fun a b i j h => h)
  apply (mergeSort_events_sorted l).imp
  intro a b h teq
  rcases h with h | ⟨e, h | ⟨e2, -⟩⟩
  · exact absurd teq (ne_of_lt h)
  · exact le_of_lt h
  · exact le_of_eq e2

/-- C1 counterexample: a PitchBend and a NoteOff at the same time sort with
the NoteOff first (priority 10 before 30), so a PitchBend does not precede an
equal-time NoteOff as the claim states. -/
theorem c1_pitch_bend_does_not_precede_note_off :
    c1_pitch_bend_event.time = c1_note_off_event.time ∧
    (sortSongEvents [c1_pitch_bend_event, c1_note_off_event]).map (fun e => e.type) =
      [EventType.NOTE_OFF, EventType.PITCH_BEND] := by
  constructor
  · rfl
  · simp [sortSongEvents, List.mergeSort, songEventLe, songEventLt,
      c1_pitch_bend_event, c1_note_off_event, EVENT_TYPE_ORDER, channelKey,
      reindexEvents, List.range, List.range.loop]

/-! ## Lemmas: the IMF type-1 writer -/

/-- C9: saving an IMF type-1 file emits a little-endian u16 length prefix of
`4 * command_count` where `command_count` is the buffered count capped at
16383, writes exactly `command_count` command triples, and for 20000 buffered
commands the prefix value is 65532. -/
theorem imf1_save_length (commands : List (ℕ × ℕ × ℤ)) :
    imf1_command_count commands.length = min commands.length 16383 ∧
    (save_file_imf1 commands).1 = pack_u16_le (4 * min commands.length 16383) ∧
    (save_file_imf1 commands).2.length = min commands.length 16383 ∧
    (save_file_imf1 commands).2 = commands.take (min commands.length 16383) ∧
    (commands.length = 20000 →
      (save_file_imf1 commands).1 = pack_u16_le 65532 ∧
      4 * imf1_command_count commands.length = 65532) := by
  have hcc : imf1_command_count commands.length = min commands.length 16383 := by
    unfold imf1_command_count MAXIMUM_COMMAND_COUNT
    split_ifs with h
    · omega
    · omega
  refine ⟨hcc, ?_, ?_, ?_, ?_⟩
  · unfold save_file_imf1
    rw [hcc, Nat.mul_comm]
  · unfold save_file_imf1
    rw [hcc, List.length_take]
    omega
  · unfold save_file_imf1
    rw [hcc]
  · intro h20000
    constructor
    · unfold save_file_imf1
      rw [hcc, h20000]
      congr 1
    · rw [hcc, h20000]
      omega

/-- C9 witness: a buffer of 20000 commands is truncated to 16383 commands and
the length prefix is the little-endian encoding of 65532. -/
theorem imf1_save_length_witness :
    (List.replicate 20000 ((0, 0, 0) : ℕ × ℕ × ℤ)).length = 20000 ∧
    (save_file_imf1 (List.replicate 20000 ((0, 0, 0) : ℕ × ℕ × ℤ))).1 =
      pack_u16_le 65532 ∧
    pack_u16_le 65532 = [252, 255] := by
  refine ⟨by rw [List.length_replicate], ?_, by decide⟩
  exact ((imf1_save_length (List.replicate 20000 ((0, 0, 0) : ℕ × ℕ × ℤ))).2.2.2.2
    (by rw [List.length_replicate])).1

/-! ## Lemmas: AdlibOperator bit properties -/

theorem set_bit_field_eq_none (r bits shift : ℕ) (v : ℤ)
    (hv : ¬(0 ≤ v ∧ v ≤ ((2 ^ bits - 1 : ℕ) : ℤ))) :
    set_bit_field r bits shift v = none := by
  unfold set_bit_field check_range
  rw [if_neg hv]
  rfl

theorem set_bit_field_eq_some (r bits shift : ℕ) (v : ℤ)
    (hv : 0 ≤ v ∧ v ≤ ((2 ^ bits - 1 : ℕ) : ℤ)) :
    set_bit_field r bits shift v =
      some ((r &&& (255 ^^^ ((2 ^ bits - 1) <<< shift))) ||| (v.toNat <<< shift)) := by
  unfold set_bit_field check_range
  rw [if_pos hv]
  rfl

theorem testBit_255 (p : ℕ) : (255 : ℕ).testBit p = decide (p < 8) := by
  have : (255 : ℕ) = 2 ^ 8 - 1 := by norm_num
  rw [this, Nat.testBit_two_pow_sub_one]

theorem testBit_of_le_mask {vn bits k : ℕ} (hvn : vn ≤ 2 ^ bits - 1)
    (hk : bits ≤ k) : vn.testBit k = false := by
  apply Nat.testBit_lt_two_pow
  have h1 : 0 < 2 ^ bits := pow_pos (by norm_num) bits
  have h2 : 2 ^ bits ≤ 2 ^ k := Nat.pow_le_pow_right (by norm_num) hk
  omega

theorem set_bits_outside (r bits shift vn : ℕ)
    (hr : r < 256) (hbs : shift + bits ≤ 8) (hvn : vn ≤ 2 ^ bits - 1)
    (p : ℕ) (hp : ¬(shift ≤ p ∧ p < shift + bits)) :
    ((r &&& (255 ^^^ ((2 ^ bits - 1) <<< shift))) ||| (vn <<< shift)).testBit p =
      r.testBit p := by
  simp only [Nat.testBit_or, Nat.testBit_and, Nat.testBit_xor,
    Nat.testBit_shiftLeft, testBit_255, Nat.testBit_two_pow_sub_one]
  rcases Nat.lt_or_ge p 8 with h8 | h8
  · rcases Nat.lt_or_ge p shift with hs | hs
    · rw [decide_eq_false (by omega : ¬shift ≤ p), decide_eq_true h8]
      simp
    · rw [decide_eq_true hs, decide_eq_false (by omega : ¬p - shift < bits),
        decide_eq_true h8, testBit_of_le_mask hvn (by omega : bits ≤ p - shift)]
      simp
  · have hrp : r.testBit p = false := by
      apply Nat.testBit_lt_two_pow
      have h2 : (256 : ℕ) ≤ 2 ^ p := by
        calc (256 : ℕ) = 2 ^ 8 := by norm_num
          _ ≤ 2 ^ p := Nat.pow_le_pow_right (by norm_num) h8
      omega
    rw [decide_eq_false (by omega : ¬p < 8),
      decide_eq_false (by omega : ¬p - shift < bits), hrp,
      testBit_of_le_mask hvn (by omega : bits ≤ p - shift)]
    simp

theorem set_bits_read_back (r bits shift vn : ℕ)
    (hbs : shift + bits ≤ 8) (hvn : vn ≤ 2 ^ bits - 1) :
    get_bit_field ((r &&& (255 ^^^ ((2 ^ bits - 1) <<< shift))) ||| (vn <<< shift))
      bits shift = vn := by
  unfold get_bit_field
  apply Nat.eq_of_testBit_eq
  intro i
  simp only [Nat.testBit_and, Nat.testBit_shiftRight, Nat.testBit_or,
    Nat.testBit_xor, Nat.testBit_shiftLeft, testBit_255,
    Nat.testBit_two_pow_sub_one]
  rcases Nat.lt_or_ge i bits with hi | hi
  · rw [decide_eq_true (by omega : shift ≤ shift + i),
      decide_eq_true (by omega : shift + i - shift < bits),
      decide_eq_true (by omega : shift + i < 8),
      decide_eq_true hi]
    have hsi : shift + i - shift = i := by omega
    rw [hsi]
    simp
  · rw [decide_eq_false (by omega : ¬i < bits), testBit_of_le_mask hvn hi]
    simp

theorem fieldSetOk_mk (getReg : AdlibOperator → ℕ)
    (upd : AdlibOperator → ℕ → AdlibOperator) (bits shift : ℕ)
    (hbs : shift + bits ≤ 8)
    (unchanged : AdlibOperator → AdlibOperator → Prop)
    (hget : ∀ op r, getReg (upd op r) = r)
    (hunch : ∀ op r, unchanged op (upd op r)) :
    FieldSetOk getReg
      (fun op v => (set_bit_field (getReg op) bits shift v).map (upd op))
      bits shift unchanged := by
  intro op v hreg
  constructor
  · intro hv
    have hvn : v.toNat ≤ 2 ^ bits - 1 := by
      have h2 := hv.2
      omega
    refine ⟨upd op ((getReg op &&& (255 ^^^ ((2 ^ bits - 1) <<< shift))) |||
        (v.toNat <<< shift)), ?_, ?_, ?_, hunch op _⟩
    · simp only [set_bit_field_eq_some _ _ _ _ hv]
      rfl
    · rw [hget]
      exact set_bits_read_back _ _ _ _ hbs hvn
    · intro p hp
      rw [hget]
      exact set_bits_outside _ _ _ _ hreg hbs hvn p hp
  · intro hv
    simp only [set_bit_field_eq_none _ _ _ _ hv]
    rfl

/-- C10: every `AdlibOperator` bit-field property (tremolo, vibrato, sustain,
ksr, freq_mult, key_scale_level, output_level, attack_rate, decay_rate,
sustain_level, release_rate) accepts exactly the values 0..2^bits-1; a
successful set makes the field read back as the new value while every bit of
the backing register outside the field and every other register byte is
unchanged, and an out-of-range value raises `ValueError`, producing no new
operator state. -/
theorem adlib_operator_bit_properties :
    FieldSetOk (fun op => op.tvskm) AdlibOperator.set_tremolo 1 7 unchangedExceptTvskm ∧
    FieldSetOk (fun op => op.tvskm) AdlibOperator.set_vibrato 1 6 unchangedExceptTvskm ∧
    FieldSetOk (fun op => op.tvskm) AdlibOperator.set_sustain 1 5 unchangedExceptTvskm ∧
    FieldSetOk (fun op => op.tvskm) AdlibOperator.set_ksr 1 4 unchangedExceptTvskm ∧
    FieldSetOk (fun op => op.tvskm) AdlibOperator.set_freq_mult 4 0 unchangedExceptTvskm ∧
    FieldSetOk (fun op => op.ksl_output) AdlibOperator.set_key_scale_level 2 6 unchangedExceptKslOutput ∧
    FieldSetOk (fun op => op.ksl_output) AdlibOperator.set_output_level 6 0 unchangedExceptKslOutput ∧
    FieldSetOk (fun op => op.attack_decay) AdlibOperator.set_attack_rate 4 4 unchangedExceptAttackDecay ∧
    FieldSetOk (fun op => op.attack_decay) AdlibOperator.set_decay_rate 4 0 unchangedExceptAttackDecay ∧
    FieldSetOk (fun op => op.sustain_release) AdlibOperator.set_sustain_level 4 4 unchangedExceptSustainRelease ∧
    FieldSetOk (fun op => op.sustain_release) AdlibOperator.set_release_rate 4 0 unchangedExceptSustainRelease := by
  refine ⟨?_, ?_, ?_, ?_, ?_, ?_, ?_, ?_, ?_, ?_, ?_⟩
  · exact fieldSetOk_mk (fun op => op.tvskm) (fun op r => { op with tvskm := r })
      1 7 (by omega) unchangedExceptTvskm (fun op r => rfl)
      (fun op r => ⟨rfl, rfl, rfl, rfl⟩)
  · exact fieldSetOk_mk (fun op => op.tvskm) (fun op r => { op with tvskm := r })
      1 6 (by omega) unchangedExceptTvskm (fun op r => rfl)
      (fun op r => ⟨rfl, rfl, rfl, rfl⟩)
  · exact fieldSetOk_mk (fun op => op.tvskm) (fun op r => { op with tvskm := r })
      1 5 (by omega) unchangedExceptTvskm (fun op r => rfl)
      (fun op r => ⟨rfl, rfl, rfl, rfl⟩)
  · exact fieldSetOk_mk (fun op => op.tvskm) (fun op r => { op with tvskm := r })
      1 4 (by omega) unchangedExceptTvskm (fun op r => rfl)
      (fun op r => ⟨rfl, rfl, rfl, rfl⟩)
  · exact fieldSetOk_mk (fun op => op.tvskm) (fun op r => { op with tvskm := r })
      4 0 (by omega) unchangedExceptTvskm (fun op r => rfl)
      (fun op r => ⟨rfl, rfl, rfl, rfl⟩)
  · exact fieldSetOk_mk (fun op => op.ksl_output) (fun op r => { op with ksl_output := r })
      2 6 (by omega) unchangedExceptKslOutput (fun op r => rfl)
      (fun op r => ⟨rfl, rfl, rfl, rfl⟩)
  · exact fieldSetOk_mk (fun op => op.ksl_output) (fun op r => { op with ksl_output := r })
      6 0 (by omega) unchangedExceptKslOutput (fun op r => rfl)
      (fun op r => ⟨rfl, rfl, rfl, rfl⟩)
  · exact fieldSetOk_mk (fun op => op.attack_decay) (fun op r => { op with attack_decay := r })
      4 4 (by omega) unchangedExceptAttackDecay (fun op r => rfl)
      (fun op r => ⟨rfl, rfl, rfl, rfl⟩)
  · exact fieldSetOk_mk (fun op => op.attack_decay) (fun op r => { op with attack_decay := r })
      4 0 (by omega) unchangedExceptAttackDecay (fun op r => rfl)
      (fun op r => ⟨rfl, rfl, rfl, rfl⟩)
  · exact fieldSetOk_mk (fun op => op.sustain_release) (fun op r => { op with sustain_release := r })
      4 4 (by omega) unchangedExceptSustainRelease (fun op r => rfl)
      (fun op r => ⟨rfl, rfl, rfl, rfl⟩)
  · exact fieldSetOk_mk (fun op => op.sustain_release) (fun op r => { op with sustain_release := r })
      4 0 (by omega) unchangedExceptSustainRelease (fun op r => rfl)
      (fun op r => ⟨rfl, rfl, rfl, rfl⟩)

/-- C10 witness: setting the tremolo bit of the zero operator to 1 succeeds,
reads back as 1, touches no other bit of `tvskm` and no other register, and
setting it to 2 raises. -/
theorem adlib_operator_bit_properties_witness :
    (∃ op2, AdlibOperator.set_tremolo zeroOperator 1 = some op2 ∧
      get_bit_field op2.tvskm 1 7 = (1 : ℤ).toNat ∧
      (∀ p, ¬(7 ≤ p ∧ p < 7 + 1) →
        op2.tvskm.testBit p = zeroOperator.tvskm.testBit p) ∧
      unchangedExceptTvskm zeroOperator op2) ∧
    AdlibOperator.set_tremolo zeroOperator 2 = none := by
  constructor
  · exact (adlib_operator_bit_properties.1 zeroOperator 1 (by decide)).1 (by decide)
  · exact (adlib_operator_bit_properties.1 zeroOperator 2 (by decide)).2 (by decide)

/-! ## Lemmas: note adjustment (C7) -/

/-- C7 (amended): the played note is
`(given_note if use_given_note else midi_note) + note_offset[voice]` whenever
that sum lies in 0..127; a sum outside 0..127 is replaced by the fixed note
60 (middle C) with a logged error, not clamped; the result is always in
0..127. -/
theorem instrument_note_out_of_range_becomes_60 (instrument : AdlibInstrument)
    (ev : SongEvent) (voice : ℕ) :
    (¬((if instrument.use_given_note then (instrument.given_note : ℤ)
        else (ev.data.note : ℤ)) + instrument.note_offset.getD voice 0 < 0 ∨
       (if instrument.use_given_note then (instrument.given_note : ℤ)
        else (ev.data.note : ℤ)) + instrument.note_offset.getD voice 0 > 127) →
      (get_instrument_note instrument ev voice : ℤ) =
        (if instrument.use_given_note then (instrument.given_note : ℤ)
         else (ev.data.note : ℤ)) + instrument.note_offset.getD voice 0) ∧
    (((if instrument.use_given_note then (instrument.given_note : ℤ)
       else (ev.data.note : ℤ)) + instrument.note_offset.getD voice 0 < 0 ∨
      (if instrument.use_given_note then (instrument.given_note : ℤ)
       else (ev.data.note : ℤ)) + instrument.note_offset.getD voice 0 > 127) →
      get_instrument_note instrument ev voice = 60) ∧
    get_instrument_note instrument ev voice ≤ 127 := by
  unfold get_instrument_note
  dsimp only
  cases hg : instrument.use_given_note with
  | false =>
    simp only [hg, Bool.false_eq_true, if_false]
    refine ⟨?_, ?_, ?_⟩ <;> intros <;> split_ifs <;> first | rfl | omega
  | true =>
    simp only [hg, eq_self_iff_true, if_true]
    refine ⟨?_, ?_, ?_⟩ <;> intros <;> split_ifs <;> first | rfl | omega

/-- C7 witness: for an instrument with note offset 100 and note 100, the
adjusted note 200 is out of range and the played note is 60. -/
theorem instrument_note_out_of_range_witness :
    get_instrument_note c7_instrument c7_note_on_event 0 = 60 :=
  (instrument_note_out_of_range_becomes_60 c7_instrument c7_note_on_event 0).2.1
    (by decide)

/-- C7 counterexample: the claim says the out-of-range adjusted note 200 is
clamped into 0..127 (that is, to 127); the code instead yields the fixed
note 60. -/
theorem c7_out_of_range_note_not_clamped :
    (if c7_instrument.use_given_note then (c7_instrument.given_note : ℤ)
     else (c7_note_on_event.data.note : ℤ)) +
      c7_instrument.note_offset.getD 0 0 = 200 ∧
    spec_clamped_note 200 = 127 ∧
    get_instrument_note c7_instrument c7_note_on_event 0 = 60 ∧
    (60 : ℤ) ≠ 127 := by decide

/-! ## Lemmas: the volume curve (C8) -/

theorem operator_volume_eq_claim (mv out : ℕ) :
    get_operator_volume mv out = claim_operator_volume mv out := by
  unfold get_operator_volume claim_operator_volume
  simp only [Nat.shiftRight_eq_div_pow]
  rw [Nat.div_div_eq_div_mul]
  have h1 : (0x3f - (out &&& 0x3f)) * 2 * volume_table.getD mv 0 =
      2 * ((0x3f - (out &&& 0x3f)) * volume_table.getD mv 0) := by ring
  rw [h1]
  have h2 : (2 : ℕ) ^ 8 = 2 * 128 := by norm_num
  have h3 : (2 : ℕ) * 64 = 128 := by norm_num
  rw [h2, h3, Nat.mul_div_mul_left _ _ (by norm_num : (0 : ℕ) < 2)]

/-- C8: the volume commands write, for each volume-scaled operator,
`0x3F - (((0x3F - (output_level & 0x3F)) * VOLUME_TABLE[mv] / 2) >> 6)` OR'd
with `key_scale_level << 6`, where `mv` is the combined MIDI volume
(channel volume times expression times velocity, scaled and capped at 127);
the carrier is always volume-scaled, the modulator is volume-scaled exactly
when the connection bit (bit 0) of the voice's feedback byte is set, and for
FM instruments the modulator value is brightness-derived, independent of the
combined volume. -/
theorem volume_commands_match_claim (channel : ImfChannelInfo)
    (instrument : AdlibInstrument) (midi_channel : MidiChannelInfo)
    (note_velocity voice : ℕ) :
    get_volume_commands channel instrument midi_channel note_velocity voice =
      [(VOLUME_MSG ||| MODULATORS.getD channel.number 0,
        (if (instrument.feedback.getD voice 0) % 2 = 1 then
          claim_operator_volume
            (min ((midi_channel.controllers 7 * midi_channel.controllers 11 *
              note_velocity) / 16129) 127)
            (instrument.modulator.getD voice zeroOperator).output_level
         else
          get_operator_brightness
            (if midi_channel.controllers 74 ≥ 64 then 127
             else midi_channel.controllers 74 * 2)
            (instrument.modulator.getD voice zeroOperator).output_level) |||
          ((instrument.modulator.getD voice zeroOperator).key_scale_level <<< 6)),
       (VOLUME_MSG ||| CARRIERS.getD channel.number 0,
        claim_operator_volume
          (min ((midi_channel.controllers 7 * midi_channel.controllers 11 *
            note_velocity) / 16129) 127)
          (instrument.carrier.getD voice zeroOperator).output_level |||
          ((instrument.carrier.getD voice zeroOperator).key_scale_level <<< 6))] := by
  unfold get_volume_commands
  have hmin : (if (midi_channel.controllers 7 * midi_channel.controllers 11 *
      note_velocity) / 16129 > 127 then 127
      else (midi_channel.controllers 7 * midi_channel.controllers 11 *
        note_velocity) / 16129) =
      min ((midi_channel.controllers 7 * midi_channel.controllers 11 *
        note_velocity) / 16129) 127 := by
    split_ifs with h
    · omega
    · omega
  have hfb : ((instrument.feedback.getD voice 0) &&& 0x01 ≠ 0) =
      ((instrument.feedback.getD voice 0) % 2 = 1) := by
    rw [Nat.and_one_is_mod]
    by_cases h : (instrument.feedback.getD voice 0) % 2 = 1
    · simp [h]
    · have h0 : (instrument.feedback.getD voice 0) % 2 = 0 := by omega
      simp [h0]
  simp only [hmin, hfb, operator_volume_eq_claim]

/-! ## Lemmas: voice allocation (C4) -/

/-- C4 counterexample: `_convert_from` creates OPL channel slots with
`range(1, 9)` — eight channels numbered 1..8, not nine channels 0..8, and
channel 0 has no slot. -/
theorem c4_converter_has_eight_imf_channels :
    (initConvState 700).imf_channels.length = 8 ∧
    (initConvState 700).imf_channels.map (fun c => c.number) =
      [1, 2, 3, 4, 5, 6, 7, 8] ∧
    ¬((initConvState 700).imf_channels.map (fun c => c.number)).contains 0 ∧
    (initConvState 700).imf_channels.length ≠ 9 := by decide

/-- C4 (amended): the converter maintains per-channel voice state for eight
OPL channels, numbered 1 through 8; `find_imf_channel` only ever assigns a
channel whose `last_note` is `None`, and assigns one whenever any of the
channels is free. -/
theorem find_imf_channel_assigns_free_channels (chs : List ImfChannelInfo)
    (inst : AdlibInstrument) (note : ℕ) :
    (∀ ch, find_imf_channel chs inst note = some ch →
      ch ∈ chs ∧ ch.last_note = none) ∧
    ((∃ ch ∈ chs, ch.last_note = none) → (find_imf_channel chs inst note).isSome) ∧
    (∀ song_ticks, (initConvState song_ticks).imf_channels.length = 8 ∧
      (initConvState song_ticks).imf_channels.map (fun c => c.number) =
        [1, 2, 3, 4, 5, 6, 7, 8]) := by
  refine ⟨?_, ?_, ?_⟩
  · intro ch h
    unfold find_imf_channel at h
    cases hfind : chs.find? (fun c => c.instrument == some inst && c.last_note == none) with
    | some c =>
      rw [hfind] at h
      cases h
      have hp := List.find?_some hfind
      simp only [Bool.and_eq_true, beq_iff_eq] at hp
      exact ⟨List.mem_of_find?_eq_some hfind, hp.2⟩
    | none =>
      rw [hfind] at h
      have hp := List.find?_some h
      simp only [beq_iff_eq] at hp
      exact ⟨List.mem_of_find?_eq_some h, hp⟩
  · rintro ⟨ch, hmem, hfree⟩
    unfold find_imf_channel
    cases hfind : chs.find? (fun c => c.instrument == some inst && c.last_note == none) with
    | some c => simp
    | none =>
      simp only [Option.isSome]
      have : (chs.find? (fun c => c.last_note == none)).isSome := by
        rw [List.find?_isSome]
        exact ⟨ch, hmem, by simp [hfree]⟩
      cases hf2 : chs.find? (fun c => c.last_note == none) with
      | some c => simp
      | none => rw [hf2] at this; simp at this
  · intro song_ticks
    constructor
    · rfl
    · rfl

/-- C4 witness: on the initial converter state (all channels free), the
allocator finds a channel for the test instrument. -/
theorem find_imf_channel_witness :
    (find_imf_channel (initConvState 700).imf_channels test_instrument 60).isSome :=
  (find_imf_channel_assigns_free_channels (initConvState 700).imf_channels
    test_instrument 60).2.1
    ⟨{ number := 1, instrument := none, last_note := none }, by decide, rfl⟩

/-! ## Lemmas: the register shadow (C3) -/

theorem lastRegValue_append (R reg value : ℕ) (d : ℤ) (cmds : List (ℕ × ℕ × ℤ)) :
    lastRegValue R (cmds ++ [(reg, value, d)]) =
      if reg = R then some value else lastRegValue R cmds := by
  unfold lastRegValue
  rw [List.foldl_append]
  rfl

theorem foldl_lrv_set (R : ℕ) :
    ∀ (cmds : List (ℕ × ℕ × ℤ)) (i : ℕ) (c : ℕ × ℕ × ℤ) (d : ℤ) (acc : Option ℕ),
    cmds[i]? = some c →
    (cmds.set i (c.1, c.2.1, d)).foldl
      (fun acc x => if x.1 = R then some x.2.1 else acc) acc =
    cmds.foldl (fun acc x => if x.1 = R then some x.2.1 else acc) acc
  | [], i, c, d, acc, h => by simp at h
  | x :: xs, 0, c, d, acc, h => by
    simp only [List.getElem?_cons_zero, Option.some.injEq] at h
    subst h
    rfl
  | x :: xs, i + 1, c, d, acc, h => by
    simp only [List.getElem?_cons_succ] at h
    simpa using foldl_lrv_set R xs i c d
      (if x.1 = R then some x.2.1 else acc) h

theorem lastRegValue_set_command_delay (R : ℕ) (cmds : List (ℕ × ℕ × ℤ))
    (i : ℕ) (d : ℤ) :
    lastRegValue R (set_command_delay cmds i d) = lastRegValue R cmds := by
  unfold set_command_delay
  cases h : cmds[i]? with
  | none => rfl
  | some c => exact foldl_lrv_set R cmds i c d none h

theorem shadowInv_of_fields_eq {st st' : ConvState}
    (h1 : st'.commands = st.commands) (h2 : st'.regs = st.regs)
    (h : ShadowInv st) : ShadowInv st' := by
  intro R v hv
  rw [h2] at hv
  rw [h1]
  exact h R v hv

theorem shadowInv_add_delay (st : ConvState) (t : ℚ) (i : ℤ)
    (h : ShadowInv st) : ShadowInv (add_delay st t i) := by
  intro R v hv
  unfold add_delay at hv ⊢
  dsimp only at hv ⊢
  rw [lastRegValue_set_command_delay]
  exact h R v hv

theorem shadowInv_add_command {st st' : ConvState} (reg value : ℕ) (delay : ℤ)
    (h : add_command st reg value delay = Except.ok st') (hinv : ShadowInv st) :
    ShadowInv st' := by
  unfold add_command at h
  split_ifs at h with h1 h2
  · cases h
    exact hinv
  · cases h
    intro R v hv
    dsimp only at hv ⊢
    by_cases hR : R = reg
    · subst hR
      rw [if_pos rfl] at hv
      cases hv
      rw [lastRegValue_append, if_pos rfl]
    · rw [if_neg hR] at hv
      rw [lastRegValue_append, if_neg (fun hh => hR hh.symm)]
      exact hinv R v hv

theorem shadowInv_add_commands :
    ∀ (cmds : List (ℕ × ℕ)) (st st' : ConvState),
    add_commands st cmds = Except.ok st' → ShadowInv st → ShadowInv st'
  | [], st, st', h, hinv => by
    cases h
    exact hinv
  | c :: rest, st, st', h, hinv => by
    unfold add_commands at h
    cases hac : add_command st c.1 c.2 0 with
    | error e =>
      rw [hac] at h
      cases h
    | ok st1 =>
      rw [hac] at h
      exact shadowInv_add_commands rest st1 st' h
        (shadowInv_add_command c.1 c.2 0 hac hinv)

theorem ebind_ok {α β : Type} {E : Except String α} {K : α → Except String β}
    {r : β} (h : ebind E K = Except.ok r) :
    ∃ x, E = Except.ok x ∧ K x = Except.ok r := by
  unfold ebind at h
  cases E with
  | error e => cases h
  | ok x => exact ⟨x, rfl, h⟩

theorem get_event_instrument_fields (catalog : ℕ → ℕ → ℕ → Option AdlibInstrument)
    (st : ConvState) (ev : SongEvent) (p : ConvState × Option AdlibInstrument)
    (h : get_event_instrument catalog st ev = Except.ok p) :
    p.1.commands = st.commands ∧ p.1.regs = st.regs := by
  unfold get_event_instrument at h
  dsimp only at h
  split_ifs at h with hperc
  · obtain ⟨inst, -, h⟩ := ebind_ok h
    cases h
    exact ⟨rfl, rfl⟩
  · split at h
    · obtain ⟨inst, -, h⟩ := ebind_ok h
      cases h
      exact ⟨rfl, rfl⟩
    · obtain ⟨inst, -, h⟩ := ebind_ok h
      cases h
      exact ⟨rfl, rfl⟩

theorem note_off_fields (catalog : ℕ → ℕ → ℕ → Option AdlibInstrument)
    (st : ConvState) (ev : SongEvent) (st' : ConvState)
    (io : Option (List (ℕ × ℕ)))
    (h : note_off catalog st ev = Except.ok (st', io)) :
    st'.commands = st.commands ∧ st'.regs = st.regs := by
  unfold note_off at h
  obtain ⟨p, hp, h⟩ := ebind_ok h
  have hf1 := get_event_instrument_fields catalog st ev p hp
  dsimp only at h
  split at h
  · cases h
    exact hf1
  · obtain ⟨q, hq, h⟩ := ebind_ok h
    have hqf : q.1.commands = p.1.commands ∧ q.1.regs = p.1.regs := by
      split_ifs at hq with hperc
      · cases hq
        exact ⟨rfl, rfl⟩
      · split at hq
        · cases hq
          exact ⟨rfl, rfl⟩
        · cases hq
    split at h
    · cases h
      exact ⟨hqf.1.trans hf1.1, hqf.2.trans hf1.2⟩
    · cases h
      exact ⟨hqf.1.trans hf1.1, hqf.2.trans hf1.2⟩

theorem note_on_fields (catalog : ℕ → ℕ → ℕ → Option AdlibInstrument)
    (st : ConvState) (ev : SongEvent) (st' : ConvState)
    (io : Option (List (ℕ × ℕ)))
    (h : note_on catalog st ev = Except.ok (st', io)) :
    st'.commands = st.commands ∧ st'.regs = st.regs := by
  unfold note_on at h
  obtain ⟨p, hp, h⟩ := ebind_ok h
  have hf1 := get_event_instrument_fields catalog st ev p hp
  dsimp only at h
  split at h
  · cases h
    exact hf1
  · split_ifs at h with hperc
    · split at h
      · cases h
        exact hf1
      · split at h
        · exact Except.noConfusion h
        · obtain ⟨bf, -, h⟩ := ebind_ok h
          cases h
          exact hf1
    · split at h
      · cases h
        exact hf1
      · split at h
        · exact Except.noConfusion h
        · obtain ⟨bf, -, h⟩ := ebind_ok h
          cases h
          exact hf1

theorem pitch_bend_fields (catalog : ℕ → ℕ → ℕ → Option AdlibInstrument)
    (st : ConvState) (ev : SongEvent) (st' : ConvState)
    (io : Option (List (ℕ × ℕ)))
    (h : pitch_bend catalog st ev = Except.ok (st', io)) :
    st'.commands = st.commands ∧ st'.regs = st.regs := by
  unfold pitch_bend at h
  by_cases h1 : is_percussion_event st ev = true
  · rw [if_pos h1] at h
    cases h
    exact ⟨rfl, rfl⟩
  · rw [if_neg h1] at h
    dsimp only at h
    by_cases h2 : (st.midi_channels (ev.channel.getD 0)).pitch_bend = ev.data.amount
    · rw [if_pos h2] at h
      cases h
      exact ⟨rfl, rfl⟩
    · rw [if_neg h2] at h
      obtain ⟨p, hp, h⟩ := ebind_ok h
      have hf1 := get_event_instrument_fields catalog _ ev p hp
      obtain ⟨cs, -, h⟩ := ebind_ok h
      cases h
      exact ⟨hf1.1, hf1.2⟩

theorem adjust_volume_fields (catalog : ℕ → ℕ → ℕ → Option AdlibInstrument)
    (st : ConvState) (ev : SongEvent) (st' : ConvState)
    (io : Option (List (ℕ × ℕ)))
    (h : adjust_volume catalog st ev = Except.ok (st', io)) :
    st'.commands = st.commands ∧ st'.regs = st.regs := by
  unfold adjust_volume at h
  by_cases h1 : ev.is_percussion = true
  · rw [if_pos h1] at h
    cases h
    exact ⟨rfl, rfl⟩
  · rw [if_neg h1] at h
    dsimp only at h
    by_cases h2 : (st.midi_channels (ev.channel.getD 0)).active_notes = []
    · rw [if_pos h2] at h
      cases h
      exact ⟨rfl, rfl⟩
    · rw [if_neg h2] at h
      obtain ⟨p, hp, h⟩ := ebind_ok h
      have hf1 := get_event_instrument_fields catalog st ev p hp
      obtain ⟨cs, -, h⟩ := ebind_ok h
      cases h
      exact hf1

theorem handle_event_fields (catalog : ℕ → ℕ → ℕ → Option AdlibInstrument)
    (st : ConvState) (ev : SongEvent) (st' : ConvState)
    (io : Option (List (ℕ × ℕ)))
    (h : handle_event catalog st ev = Except.ok (st', io)) :
    st'.commands = st.commands ∧ st'.regs = st.regs := by
  unfold handle_event at h
  by_cases h1 : (ev.type = EventType.NOTE_OFF ∨
      (ev.type = EventType.NOTE_ON ∧ ev.data.velocity = 0))
  · rw [if_pos h1] at h
    exact note_off_fields catalog st ev st' io h
  · rw [if_neg h1] at h
    by_cases h2 : ev.type = EventType.NOTE_ON
    · rw [if_pos h2] at h
      exact note_on_fields catalog st ev st' io h
    · rw [if_neg h2] at h
      by_cases h3 : ev.type = EventType.CONTROLLER_CHANGE
      · rw [if_pos h3] at h
        dsimp only at h
        by_cases h4 : (ev.data.controller = 7 ∨ ev.data.controller = 11 ∨
            ev.data.controller = 74)
        · rw [if_pos h4] at h
          have hav := adjust_volume_fields catalog
            (updateMidiChannel st (ev.channel.getD 0) (fun mc =>
              { mc with controllers := fun c =>
                  if c = ev.data.controller then ev.data.value else mc.controllers c }))
            ev st' io h
          exact hav
        · rw [if_neg h4] at h
          cases h
          exact ⟨rfl, rfl⟩
      · rw [if_neg h3] at h
        by_cases h5 : ev.type = EventType.PITCH_BEND
        · rw [if_pos h5] at h
          exact pitch_bend_fields catalog st ev st' io h
        · rw [if_neg h5] at h
          by_cases h6 : ev.type = EventType.PROGRAM_CHANGE
          · rw [if_pos h6] at h
            cases h
            exact ⟨rfl, rfl⟩
          · rw [if_neg h6] at h
            by_cases h7 : (ev.type = EventType.META ∧
                ev.data.meta_type = MetaType.SET_TEMPO)
            · rw [if_pos h7] at h
              cases h
              exact ⟨rfl, rfl⟩
            · rw [if_neg h7] at h
              cases h
              exact ⟨rfl, rfl⟩

theorem process_event_inv (catalog : ℕ → ℕ → ℕ → Option AdlibInstrument)
    (st : ConvState) (ev : SongEvent) (st' : ConvState)
    (h : process_event catalog st ev = Except.ok st') (hinv : ShadowInv st) :
    ShadowInv st' := by
  unfold process_event at h
  cases hh : handle_event catalog st ev with
  | error e =>
    rw [hh] at h
    cases h
  | ok p =>
    rw [hh] at h
    obtain ⟨st1, io⟩ := p
    have hf := handle_event_fields catalog st ev st1 io hh
    have hinv1 : ShadowInv st1 := shadowInv_of_fields_eq hf.1 hf.2 hinv
    cases io with
    | none =>
      cases h
      exact hinv1
    | some cmds =>
      dsimp only at h
      split_ifs at h with hc
      · cases h
        exact hinv1
      · cases hac : add_commands st1 cmds with
        | error e =>
          rw [hac] at h
          cases h
        | ok st2 =>
          rw [hac] at h
          dsimp only at h
          have hinv2 := shadowInv_add_commands cmds st1 st2 hac hinv1
          split_ifs at h with hl
          · cases h
            exact shadowInv_add_delay _ _ _ hinv2
          · cases h
            exact hinv2

theorem run_events_inv :
    ∀ (events : List SongEvent) (catalog : ℕ → ℕ → ℕ → Option AdlibInstrument)
      (st st' : ConvState),
    run_events catalog st events = Except.ok st' → ShadowInv st → ShadowInv st'
  | [], _, st, st', h, hinv => by
    cases h
    exact hinv
  | ev :: rest, catalog, st, st', h, hinv => by
    unfold run_events at h
    cases hp : process_event catalog st ev with
    | error e =>
      rw [hp] at h
      cases h
    | ok st1 =>
      rw [hp] at h
      exact run_events_inv rest catalog st1 st' h
        (process_event_inv catalog st ev st1 hp hinv)

/-- C3 (amended): `add_command(reg, value)` is a no-op returning the state
unchanged when the register shadow already holds the value; otherwise, when
its range assertions pass, it appends exactly the command `(reg, value, 0)`,
sets `shadow[reg] = value`, and changes nothing else.  Consequently, after
any conversion, for every register whose shadow entry is not `None`, the
shadow equals the value of the last buffered command targeting that
register.  (The three header commands are emitted without updating the
shadow, so a header register that is never rewritten keeps a `None` shadow
entry; the claim's unrestricted form fails on them.) -/
theorem add_command_register_shadow :
    (∀ (st : ConvState) (reg value : ℕ) (delay : ℤ),
      st.regs reg = some value → add_command st reg value delay = Except.ok st) ∧
    (∀ (st st' : ConvState) (reg value : ℕ),
      st.regs reg ≠ some value → add_command st reg value 0 = Except.ok st' →
      st'.commands = st.commands ++ [(reg, value, 0)] ∧
      st'.regs reg = some value ∧
      (∀ R, R ≠ reg → st'.regs R = st.regs R) ∧
      st'.midi_channels = st.midi_channels ∧
      st'.imf_channels = st.imf_channels ∧
      st'.ticks_per_beat = st.ticks_per_beat ∧
      st'.last_command_ticks = st.last_command_ticks ∧
      st'.tempo_start_time = st.tempo_start_time) ∧
    (∀ (catalog : ℕ → ℕ → ℕ → Option AdlibInstrument)
      (events : List SongEvent) (song_ticks : ℕ) (st : ConvState),
      convert_from catalog events song_ticks = Except.ok st → ShadowInv st) := by
  refine ⟨?_, ?_, ?_⟩
  · intro st reg value delay h
    unfold add_command
    rw [if_pos h]
  · intro st st' reg value h1 h
    unfold add_command at h
    rw [if_neg h1] at h
    split_ifs at h with h2
    · cases h
      refine ⟨rfl, ?_, ?_, rfl, rfl, rfl, rfl, rfl⟩
      · simp
      · intro R hR
        simp [hR]
  · intro catalog events song_ticks st h
    unfold convert_from at h
    dsimp only at h
    unfold process_events at h
    have hinv0 : ShadowInv
        { set_tempo (initConvState song_ticks) 120 0 with
          commands := [(0, 0, 0), (0xBD, 0, 0), (0x8, 0, 0)] } :=
      fun R v hv => Option.noConfusion hv
    cases hr : run_events catalog
        { set_tempo (initConvState song_ticks) 120 0 with
          commands := [(0, 0, 0), (0xBD, 0, 0), (0x8, 0, 0)] } events with
    | error e =>
      rw [hr] at h
      cases h
    | ok st3 =>
      rw [hr] at h
      have hinv3 := run_events_inv events catalog _ st3 hr hinv0
      cases hm : py_max (events.map SongEvent.time) with
      | error e =>
        rw [hm] at h
        cases h
      | ok t =>
        rw [hm] at h
        cases h
        exact shadowInv_add_delay _ _ _ hinv3

/-- C3 witness: on a state whose shadow holds 7 for register 5, adding the
command (5, 7) is a no-op returning the state itself. -/
theorem add_command_register_shadow_witness :
    add_command test_shadow_state 5 7 0 = Except.ok test_shadow_state :=
  add_command_register_shadow.1 test_shadow_state 5 7 0 rfl

/-- C3 counterexample: converting a single set-tempo event leaves exactly the
three header commands in the buffer; register 0 appears in the buffer with
last value 0, yet its shadow entry is `None`, so the claim's statement that
the shadow equals the last buffered value for every register appearing in
the buffer is false. -/
theorem c3_header_commands_bypass_shadow :
    (convert_from test_catalog [test_tempo_event] 700).toOption.map
      (fun st => (st.commands, st.regs 0, lastRegValue 0 st.commands)) =
      some ([(0, 0, 0), (0xBD, 0, 0), (0x8, 0, 0)],
        (none : Option ℕ), some 0) ∧
    (none : Option ℕ) ≠ some 0 := by
  constructor
  · with_unfolding_all rfl
  · decide

/-! ## Lemmas: tempo accounting (C5) and mid-stream failure (C6) -/

/-- C5: evaluating the converter on a nonzero pitch bend (which creates the
`scaled_pitch_bend` attribute and emits no commands) followed by a note held
across a 120-to-240 BPM tempo change.  The delay computed for the command
group at beat 3 is
`int(175 * (3 - 2)) - 350 = -175`: the tick count goes backwards, because
`set_tempo` resets `tempo_start_time` without rebasing the accumulated ticks
(`tempo_start_ticks` of the claim does not exist in the code) and
`last_command_ticks` still holds a value from the previous tempo region. -/
theorem c5_delay_negative_after_tempo_change :
    (convert_from test_catalog c5_events 700).toOption.map
      (fun st => ((st.commands.getD 15 (0, 0, 0)).2.2,
        st.commands.any (fun c => decide (c.2.2 < 0)))) =
      some (-175, true) := by
  with_unfolding_all rfl

/-- C6 (amended): the converter can raise mid-stream: for a non-percussion
NoteOff whose note has no matching entry in the channel's active notes, the
handler raises `ValueError("Tried to remove non-active note: ...")` and the
conversion aborts instead of degrading gracefully. -/
theorem note_off_unmatched_active_note_raises
    (catalog : ℕ → ℕ → ℕ → Option AdlibInstrument) (st st1 : ConvState)
    (ev : SongEvent) (inst : AdlibInstrument)
    (hget : get_event_instrument catalog st ev = Except.ok (st1, some inst))
    (hperc : is_percussion_event st1 ev = false)
    (hfind : (st1.midi_channels (ev.channel.getD 0)).active_notes.find?
      (fun note_info => note_info.2.data.note == ev.data.note) = none) :
    note_off catalog st ev = Except.error "Tried to remove non-active note" := by
  unfold note_off ebind
  rw [hget]
  dsimp only
  rw [hperc]
  simp only [Bool.false_eq_true, if_false]
  rw [hfind]

/-- C6 witness: the amended theorem applied to the initial converter state
and a note-off with no preceding note-on. -/
theorem note_off_unmatched_raises_witness :
    note_off test_catalog (initConvState 700) c6_note_off_event =
      Except.error "Tried to remove non-active note" :=
  note_off_unmatched_active_note_raises test_catalog (initConvState 700)
    (updateMidiChannel (initConvState 700) 0
      (fun mc => { mc with instrument := some 0 }))
    c6_note_off_event test_instrument
    (by with_unfolding_all rfl) (by with_unfolding_all rfl)
    (by with_unfolding_all rfl)

/-- C6 counterexample: an entire conversion of a single unmatched note-off
aborts with the `ValueError`, so the converter does not run to completion on
every sorted event list and catalog. -/
theorem c6_conversion_aborts_mid_stream :
    convert_from test_catalog c6_events 700 =
      Except.error "Tried to remove non-active note" := by
  with_unfolding_all rfl
